import Mathlib

/- Shallow embedding of the ZMK kscan GPIO drivers
   src/app/drivers/kscan/kscan_gpio_round_robin.c and
   src/app/drivers/kscan/kscan_gpio_multiplex.c.

   GPIO and work-queue effects are modelled by an explicit environment
   record (`gpio_env`) supplying the results of the Zephyr GPIO calls, and
   by traces of the GPIO actions and the scheduling decision each
   operation performs.  The debounce module (debounce.h / debounce.c) is
   not among the sources, so it is modelled from the specification
   (sections 3 and 4.1); every such definition is marked
   `Modelled from the spec`. -/

/-- Modelled from the spec: DEBOUNCE_COUNTER_MAX of the missing debounce.h,
    the saturating ceiling on a debounce counter ("MAX is a fixed ceiling
    (e.g., 127)", spec section 3); we fix the spec's example value. -/
def DEBOUNCE_COUNTER_MAX : Nat := 127

/-- Modelled from the spec: struct debounce_state of the missing debounce.h
    (spec section 3, DebounceCell): a saturating counter, the stable
    reported pressed state, and a changed flag that is true for exactly one
    observation after a stable-state transition. -/
structure debounce_state where
  pressed : Bool
  changed : Bool
  counter : Nat
deriving DecidableEq

/-- Modelled from the spec: struct debounce_config of the missing
    debounce.h, the asymmetric press/release thresholds in milliseconds. -/
structure debounce_config where
  debounce_press_ms : Nat
  debounce_release_ms : Nat
deriving DecidableEq

/-- Modelled from the spec (section 4.1): the threshold for the current
    direction, `threshold = pressed ? release_ms : press_ms`. -/
def debounce_threshold (st : debounce_state) (cfg : debounce_config) : Nat :=
  if st.pressed then cfg.debounce_release_ms else cfg.debounce_press_ms

/-- Modelled from the spec: debounce_update of the missing debounce.c
    (spec section 4.1, integrator with hysteresis).  If the raw sample
    matches the stable state: decay the counter by 1 (saturating at 0) and
    clear changed.  Otherwise add elapsed_ms (saturating at
    DEBOUNCE_COUNTER_MAX); when the counter reaches the threshold for the
    current direction, toggle pressed, reset the counter and set changed;
    otherwise clear changed. -/
def debounce_update (st : debounce_state) (sample : Bool) (elapsed_ms : Nat)
    (cfg : debounce_config) : debounce_state :=
  if sample = st.pressed then
    { st with counter := st.counter - 1, changed := false }
  else
    let counter := min (st.counter + elapsed_ms) DEBOUNCE_COUNTER_MAX
    if debounce_threshold st cfg ≤ counter then
      { pressed := !st.pressed, counter := 0, changed := true }
    else
      { st with counter := counter, changed := false }

/-- Modelled from the spec: the debounce_is_pressed query of the missing
    debounce.h, the stable reported state. -/
def debounce_is_pressed (st : debounce_state) : Bool := st.pressed

/-- Modelled from the spec: the debounce_get_changed query of the missing
    debounce.h. -/
def debounce_get_changed (st : debounce_state) : Bool := st.changed

/-- Modelled from the spec: the debounce_is_active query of the missing
    debounce.h, the query "used by the scheduler to decide whether
    quiescence has been reached" (spec section 4.1).  The call sites in
    both scanners pass only the cell state, and the glossary defines
    Quiescent as "no cell reports either pressed or active (mid-transition)
    state"; under the debouncer's invariant (the counter is zero or below
    the threshold for the current direction, `debounce_inv` below) a
    decision is in flight exactly when the counter is positive, so the
    query reports pressed-or-positive-counter. -/
def debounce_is_active (st : debounce_state) : Bool :=
  st.pressed || decide (0 < st.counter)

/-- The spec's derived per-cell predicate (section 3): `active` holds when
    the counter is strictly between 0 and the threshold for the current
    direction. -/
def cell_active (st : debounce_state) (cfg : debounce_config) : Bool :=
  decide (0 < st.counter) && decide (st.counter < debounce_threshold st cfg)

/-- The zero/released debounce cell state (cells are reset to released
    state at init, spec section 3). -/
def debounce_init : debounce_state := { pressed := false, changed := false, counter := 0 }

/-- Debouncer state invariant: the counter is zero or strictly below the
    threshold for the current direction.  It holds of the released state
    and is preserved by every update. -/
def debounce_inv (st : debounce_state) (cfg : debounce_config) : Prop :=
  st.counter = 0 ∨ st.counter < debounce_threshold st cfg

/-- Zephyr -ENODEV magnitude (device not ready). -/
def ENODEV : Int := 19

/-- Zephyr -EINVAL magnitude (invalid argument). -/
def EINVAL : Int := 22

/-- The two interrupt flag values the drivers use:
    GPIO_INT_LEVEL_ACTIVE and GPIO_INT_DISABLE. -/
inductive gpio_intr_flags where
  | GPIO_INT_LEVEL_ACTIVE
  | GPIO_INT_DISABLE
deriving DecidableEq

/-- Environment supplying the results of the Zephyr GPIO calls for one
    operation: per-pin readiness, per-pin results of configuring a matrix
    pin as input or output, of writing a level, the raw sample read on a
    column pin while a row pin is driven, and the result of configuring
    the dedicated interrupt pin. -/
structure gpio_env where
  ready : Nat → Bool
  configure_input : Nat → Int
  configure_output : Nat → Int
  set_pin : Nat → Int → Int
  pin_get : Nat → Nat → Bool
  intr_configure : gpio_intr_flags → Int

/-- One GPIO action performed by the driver, in program order. -/
inductive gpio_action where
  | configure_in (pin : Nat)
  | configure_out (pin : Nat)
  | set_val (pin : Nat) (value : Int)
  | intr_config (flags : gpio_intr_flags)
deriving DecidableEq

/-- A work-queue scheduling decision: k_work_reschedule with an absolute
    millisecond deadline (K_TIMEOUT_ABS_MS) or with no delay (K_NO_WAIT). -/
inductive sched_action where
  | abs_ms (t : Int)
  | no_wait
deriving DecidableEq

/-- The per-instance configuration shared by both drivers (struct
    kscan_round_robin_config / kscan_multiplex_config): the number of
    matrix pins, the debounce thresholds, the fast and slow cadences, and
    whether the instance uses the dedicated interrupt pin.  The C sources
    express the interrupt/polling choice partly through conditional
    compilation; it collapses to the boolean. -/
structure kscan_config where
  len : Nat
  debounce_config : debounce_config
  debounce_scan_period_ms : Nat
  poll_period_ms : Nat
  use_interrupt : Bool

/-- The mutable driver data (struct kscan_round_robin_data /
    kscan_multiplex_data): the consumer callback (an opaque handle, absent
    until configure installs one), the scan timestamp, and the flattened
    debounce grid of conceptual length len * len. -/
structure kscan_data where
  callback : Option Nat
  scan_time : Int
  grid : Nat → debounce_state

/-- The local state of the matrix scan loop inside a read: the grid, the
    callbacks delivered so far, the accumulated continue_scan flag, and
    whether the loop dereferenced an absent callback (the C code calls
    data->callback with no null check). -/
structure scan_state where
  grid : Nat → debounce_state
  events : List (Nat × Nat × Bool)
  continue_scan : Bool
  null_deref : Bool

/-- The observable outcome of one read (scan round): the final grid, the
    callbacks delivered in order, the GPIO actions in order, the final
    scan timestamp, the scheduling decision (none when no reschedule was
    issued), the final value of the continue_scan local (none when the
    round returned before deciding), the null-callback marker, and the
    return code. -/
structure read_outcome where
  grid : Nat → debounce_state
  events : List (Nat × Nat × Bool)
  actions : List gpio_action
  scan_time : Int
  sched : Option sched_action
  continue_scan : Option Bool
  null_deref : Bool
  ret : Int

/-- Pointwise store into a flattened grid. -/
def state_store (g : Nat → debounce_state) (i : Nat) (v : debounce_state) :
    Nat → debounce_state :=
  fun j => if j = i then v else g j

namespace roundrobin

/-- state_index of kscan_gpio_round_robin.c: the index into the flattened
    matrix state array from a row and a column. -/
def state_index (len row col : Nat) : Nat :=
  col * len + row

/-- kscan_round_robin_set_as_input: readiness check, then configure the
    pin as input; returns the first error. -/
def kscan_round_robin_set_as_input (env : gpio_env) (i : Nat) :
    List gpio_action × Int :=
  if env.ready i then ([gpio_action.configure_in i], env.configure_input i)
  else ([], -ENODEV)

/-- kscan_round_robin_set_as_output: readiness check, configure the pin as
    output, then drive it to 1; returns the first error. -/
def kscan_round_robin_set_as_output (env : gpio_env) (i : Nat) :
    List gpio_action × Int :=
  if env.ready i then
    let e1 := env.configure_output i
    if e1 ≠ 0 then ([gpio_action.configure_out i], e1)
    else ([gpio_action.configure_out i, gpio_action.set_val i 1], env.set_pin i 1)
  else ([], -ENODEV)

/-- Helper loop of kscan_round_robin_set_all_as_input over the listed
    pins, stopping at the first error. -/
def set_all_as_input_loop (env : gpio_env) : List Nat → List gpio_action × Int
  | [] => ([], 0)
  | i :: rest =>
    let r := kscan_round_robin_set_as_input env i
    if r.2 ≠ 0 then r
    else
      let r2 := set_all_as_input_loop env rest
      (r.1 ++ r2.1, r2.2)

/-- kscan_round_robin_set_all_as_input: set every matrix pin as input. -/
def kscan_round_robin_set_all_as_input (env : gpio_env) (len : Nat) :
    List gpio_action × Int :=
  set_all_as_input_loop env (List.range len)

/-- Helper loop of kscan_round_robin_set_all_outputs: for each listed pin,
    configure it as output and write the value, stopping at the first
    error.  (This entry point performs no readiness check.) -/
def set_all_outputs_loop (env : gpio_env) (value : Int) :
    List Nat → List gpio_action × Int
  | [] => ([], 0)
  | i :: rest =>
    let e1 := env.configure_output i
    if e1 ≠ 0 then ([gpio_action.configure_out i], e1)
    else
      let e2 := env.set_pin i value
      if e2 ≠ 0 then ([gpio_action.configure_out i, gpio_action.set_val i value], e2)
      else
        let r := set_all_outputs_loop env value rest
        (gpio_action.configure_out i :: gpio_action.set_val i value :: r.1, r.2)

/-- kscan_round_robin_set_all_outputs. -/
def kscan_round_robin_set_all_outputs (env : gpio_env) (len : Nat) (value : Int) :
    List gpio_action × Int :=
  set_all_outputs_loop env value (List.range len)

/-- kscan_round_robin_interrupt_configure: configure the dedicated
    interrupt pin with the given flags. -/
def kscan_round_robin_interrupt_configure (env : gpio_env)
    (flags : gpio_intr_flags) : List gpio_action × Int :=
  ([gpio_action.intr_config flags], env.intr_configure flags)

/-- kscan_round_robin_interrupt_enable: arm the level-active interrupt,
    then drive all matrix pins as outputs at 1 so a pressed key triggers. -/
def kscan_round_robin_interrupt_enable (env : gpio_env) (len : Nat) :
    List gpio_action × Int :=
  let r1 := kscan_round_robin_interrupt_configure env gpio_intr_flags.GPIO_INT_LEVEL_ACTIVE
  if r1.2 ≠ 0 then r1
  else
    let r2 := kscan_round_robin_set_all_outputs env len 1
    (r1.1 ++ r2.1, r2.2)

/-- The body of the inner column loop of kscan_round_robin_read for the
    driven row `r` and the column `c`: skip the diagonal, update the cell
    at state_index with the raw sample, deliver the callback when the cell
    reports changed (the C code dereferences data->callback with no null
    check; an absent callback is recorded in null_deref), and accumulate
    continue_scan with the cell's is_active. -/
def scan_cell (cfg : kscan_config) (env : gpio_env) (cb : Option Nat) (r : Nat)
    (st : scan_state) (c : Nat) : scan_state :=
  if c = r then st
  else
    let index := state_index cfg.len r c
    let s := debounce_update (st.grid index) (env.pin_get r c)
      cfg.debounce_scan_period_ms cfg.debounce_config
    let st1 : scan_state := { st with grid := state_store st.grid index s }
    let st2 : scan_state :=
      if debounce_get_changed s then
        match cb with
        | some _ => { st1 with events := st1.events ++ [(r, c, debounce_is_pressed s)] }
        | none => { st1 with null_deref := true }
      else st1
    { st2 with continue_scan := st2.continue_scan || debounce_is_active s }

/-- The inner column loop of kscan_round_robin_read over all columns for
    one driven row. -/
def scan_row (cfg : kscan_config) (env : gpio_env) (cb : Option Nat) (r : Nat)
    (st : scan_state) : scan_state :=
  (List.range cfg.len).foldl (scan_cell cfg env cb r) st

/-- The outer row loop of kscan_round_robin_read: for each row, configure
    it as output (returning the first error), scan every column, then
    configure the row back as input (returning the first error). -/
def scan_rows (cfg : kscan_config) (env : gpio_env) (cb : Option Nat) :
    List Nat → scan_state → List gpio_action → scan_state × List gpio_action × Int
  | [], st, acts => (st, acts, 0)
  | r :: rest, st, acts =>
    let r1 := kscan_round_robin_set_as_output env r
    if r1.2 ≠ 0 then (st, acts ++ r1.1, r1.2)
    else
      let st1 := scan_row cfg env cb r st
      let r2 := kscan_round_robin_set_as_input env r
      if r2.2 ≠ 0 then (st1, acts ++ r1.1 ++ r2.1, r2.2)
      else scan_rows cfg env cb rest st1 (acts ++ r1.1 ++ r2.1)

/-- kscan_round_robin_read_continue: advance the scan timestamp by the
    fast cadence and reschedule at that absolute time. -/
def kscan_round_robin_read_continue (cfg : kscan_config) (scan_time : Int) :
    Int × sched_action :=
  let t := scan_time + (cfg.debounce_scan_period_ms : Int)
  (t, sched_action.abs_ms t)

/-- kscan_round_robin_read_end: in interrupt mode re-enable the interrupt
    (its result is discarded, the C call is in void context) and issue no
    reschedule; in polling mode advance the scan timestamp by the slow
    cadence and reschedule at that absolute time. -/
def kscan_round_robin_read_end (cfg : kscan_config) (env : gpio_env)
    (scan_time : Int) : Int × Option sched_action × List gpio_action :=
  if cfg.use_interrupt then
    let r := kscan_round_robin_interrupt_enable env cfg.len
    (scan_time, none, r.1)
  else
    let t := scan_time + (cfg.poll_period_ms : Int)
    (t, some (sched_action.abs_ms t), [])

/-- kscan_round_robin_read: one scan round.  Defensively set all pins as
    input (returning the first error), scan the matrix row by row, then
    either poll quickly again (continue_scan) or return to normal
    (read_end). -/
def kscan_round_robin_read (cfg : kscan_config) (env : gpio_env)
    (data : kscan_data) : read_outcome :=
  let r0 := kscan_round_robin_set_all_as_input env cfg.len
  if r0.2 ≠ 0 then
    { grid := data.grid, events := [], actions := r0.1,
      scan_time := data.scan_time, sched := none, continue_scan := none,
      null_deref := false, ret := r0.2 }
  else
    let st0 : scan_state :=
      { grid := data.grid, events := [], continue_scan := false, null_deref := false }
    let r1 := scan_rows cfg env data.callback (List.range cfg.len) st0 []
    if r1.2.2 ≠ 0 then
      { grid := r1.1.grid, events := r1.1.events, actions := r0.1 ++ r1.2.1,
        scan_time := data.scan_time, sched := none, continue_scan := none,
        null_deref := r1.1.null_deref, ret := r1.2.2 }
    else if r1.1.continue_scan then
      let rc := kscan_round_robin_read_continue cfg data.scan_time
      { grid := r1.1.grid, events := r1.1.events, actions := r0.1 ++ r1.2.1,
        scan_time := rc.1, sched := some rc.2, continue_scan := some true,
        null_deref := r1.1.null_deref, ret := 0 }
    else
      let re := kscan_round_robin_read_end cfg env data.scan_time
      { grid := r1.1.grid, events := r1.1.events,
        actions := r0.1 ++ r1.2.1 ++ re.2.2, scan_time := re.1,
        sched := re.2.1, continue_scan := some false,
        null_deref := r1.1.null_deref, ret := 0 }

/-- kscan_round_robin_work_handler: runs one read and discards its return
    value. -/
def kscan_round_robin_work_handler (cfg : kscan_config) (env : gpio_env)
    (data : kscan_data) : read_outcome :=
  kscan_round_robin_read cfg env data

/-- kscan_round_robin_configure: reject an absent callback with -EINVAL
    leaving the data unchanged; otherwise install the callback. -/
def kscan_round_robin_configure (data : kscan_data) (callback : Option Nat) :
    Int × kscan_data :=
  match callback with
  | none => (-EINVAL, data)
  | some cb => (0, { data with callback := some cb })

/-- kscan_round_robin_enable: stamp the scan timestamp with the current
    uptime and run one immediate read, returning its outcome. -/
def kscan_round_robin_enable (cfg : kscan_config) (env : gpio_env) (now : Int)
    (data : kscan_data) : read_outcome :=
  kscan_round_robin_read cfg env { data with scan_time := now }

/-- kscan_round_robin_disable: cancel the delayed work (first component),
    and in interrupt mode disable the interrupt, returning its result. -/
def kscan_round_robin_disable (cfg : kscan_config) (env : gpio_env) :
    Bool × Int × List gpio_action :=
  if cfg.use_interrupt then
    let r := kscan_round_robin_interrupt_configure env gpio_intr_flags.GPIO_INT_DISABLE
    (true, r.2, r.1)
  else (true, 0, [])

end roundrobin

namespace multiplex

/-- state_index of kscan_gpio_multiplex.c: the index into the flattened
    matrix state array from a row and a column. -/
def state_index (len row col : Nat) : Nat :=
  col * len + row

/-- kscan_multiplex_set_as_input. -/
def kscan_multiplex_set_as_input (env : gpio_env) (i : Nat) :
    List gpio_action × Int :=
  if env.ready i then ([gpio_action.configure_in i], env.configure_input i)
  else ([], -ENODEV)

/-- kscan_multiplex_set_as_output. -/
def kscan_multiplex_set_as_output (env : gpio_env) (i : Nat) :
    List gpio_action × Int :=
  if env.ready i then
    let e1 := env.configure_output i
    if e1 ≠ 0 then ([gpio_action.configure_out i], e1)
    else ([gpio_action.configure_out i, gpio_action.set_val i 1], env.set_pin i 1)
  else ([], -ENODEV)

/-- Helper loop of kscan_multiplex_set_all_as_input. -/
def set_all_as_input_loop (env : gpio_env) : List Nat → List gpio_action × Int
  | [] => ([], 0)
  | i :: rest =>
    let r := kscan_multiplex_set_as_input env i
    if r.2 ≠ 0 then r
    else
      let r2 := set_all_as_input_loop env rest
      (r.1 ++ r2.1, r2.2)

/-- kscan_multiplex_set_all_as_input. -/
def kscan_multiplex_set_all_as_input (env : gpio_env) (len : Nat) :
    List gpio_action × Int :=
  set_all_as_input_loop env (List.range len)

/-- Helper loop of kscan_multiplex_set_all_outputs. -/
def set_all_outputs_loop (env : gpio_env) (value : Int) :
    List Nat → List gpio_action × Int
  | [] => ([], 0)
  | i :: rest =>
    let e1 := env.configure_output i
    if e1 ≠ 0 then ([gpio_action.configure_out i], e1)
    else
      let e2 := env.set_pin i value
      if e2 ≠ 0 then ([gpio_action.configure_out i, gpio_action.set_val i value], e2)
      else
        let r := set_all_outputs_loop env value rest
        (gpio_action.configure_out i :: gpio_action.set_val i value :: r.1, r.2)

/-- kscan_multiplex_set_all_outputs. -/
def kscan_multiplex_set_all_outputs (env : gpio_env) (len : Nat) (value : Int) :
    List gpio_action × Int :=
  set_all_outputs_loop env value (List.range len)

/-- kscan_multiplex_interrupt_configure. -/
def kscan_multiplex_interrupt_configure (env : gpio_env)
    (flags : gpio_intr_flags) : List gpio_action × Int :=
  ([gpio_action.intr_config flags], env.intr_configure flags)

/-- kscan_multiplex_interrupt_enable. -/
def kscan_multiplex_interrupt_enable (env : gpio_env) (len : Nat) :
    List gpio_action × Int :=
  let r1 := kscan_multiplex_interrupt_configure env gpio_intr_flags.GPIO_INT_LEVEL_ACTIVE
  if r1.2 ≠ 0 then r1
  else
    let r2 := kscan_multiplex_set_all_outputs env len 1
    (r1.1 ++ r2.1, r2.2)

/-- The body of the inner column loop of kscan_multiplex_read. -/
def scan_cell (cfg : kscan_config) (env : gpio_env) (cb : Option Nat) (r : Nat)
    (st : scan_state) (c : Nat) : scan_state :=
  if c = r then st
  else
    let index := state_index cfg.len r c
    let s := debounce_update (st.grid index) (env.pin_get r c)
      cfg.debounce_scan_period_ms cfg.debounce_config
    let st1 : scan_state := { st with grid := state_store st.grid index s }
    let st2 : scan_state :=
      if debounce_get_changed s then
        match cb with
        | some _ => { st1 with events := st1.events ++ [(r, c, debounce_is_pressed s)] }
        | none => { st1 with null_deref := true }
      else st1
    { st2 with continue_scan := st2.continue_scan || debounce_is_active s }

/-- The inner column loop of kscan_multiplex_read. -/
def scan_row (cfg : kscan_config) (env : gpio_env) (cb : Option Nat) (r : Nat)
    (st : scan_state) : scan_state :=
  (List.range cfg.len).foldl (scan_cell cfg env cb r) st

/-- The outer row loop of kscan_multiplex_read. -/
def scan_rows (cfg : kscan_config) (env : gpio_env) (cb : Option Nat) :
    List Nat → scan_state → List gpio_action → scan_state × List gpio_action × Int
  | [], st, acts => (st, acts, 0)
  | r :: rest, st, acts =>
    let r1 := kscan_multiplex_set_as_output env r
    if r1.2 ≠ 0 then (st, acts ++ r1.1, r1.2)
    else
      let st1 := scan_row cfg env cb r st
      let r2 := kscan_multiplex_set_as_input env r
      if r2.2 ≠ 0 then (st1, acts ++ r1.1 ++ r2.1, r2.2)
      else scan_rows cfg env cb rest st1 (acts ++ r1.1 ++ r2.1)

/-- kscan_multiplex_read_continue. -/
def kscan_multiplex_read_continue (cfg : kscan_config) (scan_time : Int) :
    Int × sched_action :=
  let t := scan_time + (cfg.debounce_scan_period_ms : Int)
  (t, sched_action.abs_ms t)

/-- kscan_multiplex_read_end: the C file selects interrupt or polling at
    compile time (USE_INTERRUPT); the model takes the choice from the
    configuration. -/
def kscan_multiplex_read_end (cfg : kscan_config) (env : gpio_env)
    (scan_time : Int) : Int × Option sched_action × List gpio_action :=
  if cfg.use_interrupt then
    let r := kscan_multiplex_interrupt_enable env cfg.len
    (scan_time, none, r.1)
  else
    let t := scan_time + (cfg.poll_period_ms : Int)
    (t, some (sched_action.abs_ms t), [])

/-- kscan_multiplex_read: one scan round. -/
def kscan_multiplex_read (cfg : kscan_config) (env : gpio_env)
    (data : kscan_data) : read_outcome :=
  let r0 := kscan_multiplex_set_all_as_input env cfg.len
  if r0.2 ≠ 0 then
    { grid := data.grid, events := [], actions := r0.1,
      scan_time := data.scan_time, sched := none, continue_scan := none,
      null_deref := false, ret := r0.2 }
  else
    let st0 : scan_state :=
      { grid := data.grid, events := [], continue_scan := false, null_deref := false }
    let r1 := scan_rows cfg env data.callback (List.range cfg.len) st0 []
    if r1.2.2 ≠ 0 then
      { grid := r1.1.grid, events := r1.1.events, actions := r0.1 ++ r1.2.1,
        scan_time := data.scan_time, sched := none, continue_scan := none,
        null_deref := r1.1.null_deref, ret := r1.2.2 }
    else if r1.1.continue_scan then
      let rc := kscan_multiplex_read_continue cfg data.scan_time
      { grid := r1.1.grid, events := r1.1.events, actions := r0.1 ++ r1.2.1,
        scan_time := rc.1, sched := some rc.2, continue_scan := some true,
        null_deref := r1.1.null_deref, ret := 0 }
    else
      let re := kscan_multiplex_read_end cfg env data.scan_time
      { grid := r1.1.grid, events := r1.1.events,
        actions := r0.1 ++ r1.2.1 ++ re.2.2, scan_time := re.1,
        sched := re.2.1, continue_scan := some false,
        null_deref := r1.1.null_deref, ret := 0 }

/-- kscan_multiplex_work_handler. -/
def kscan_multiplex_work_handler (cfg : kscan_config) (env : gpio_env)
    (data : kscan_data) : read_outcome :=
  kscan_multiplex_read cfg env data

/-- kscan_multiplex_configure. -/
def kscan_multiplex_configure (data : kscan_data) (callback : Option Nat) :
    Int × kscan_data :=
  match callback with
  | none => (-EINVAL, data)
  | some cb => (0, { data with callback := some cb })

/-- kscan_multiplex_enable. -/
def kscan_multiplex_enable (cfg : kscan_config) (env : gpio_env) (now : Int)
    (data : kscan_data) : read_outcome :=
  kscan_multiplex_read cfg env { data with scan_time := now }

/-- kscan_multiplex_disable. -/
def kscan_multiplex_disable (cfg : kscan_config) (env : gpio_env) :
    Bool × Int × List gpio_action :=
  if cfg.use_interrupt then
    let r := kscan_multiplex_interrupt_configure env gpio_intr_flags.GPIO_INT_DISABLE
    (true, r.2, r.1)
  else (true, 0, [])

end multiplex

/-- The spec's any_active accumulation over all off-diagonal cells of a
    grid: some cell is mid-transition (spec section 4.2, step 2c). -/
def any_active (cfg : kscan_config) (g : Nat → debounce_state) : Bool :=
  (List.range cfg.len).any fun r =>
    (List.range cfg.len).any fun c =>
      decide (c ≠ r) && cell_active (g (roundrobin.state_index cfg.len r c)) cfg.debounce_config

/-- The spec's any_pressed accumulation over all off-diagonal cells of a
    grid: some cell reports a stable pressed state. -/
def any_pressed (cfg : kscan_config) (g : Nat → debounce_state) : Bool :=
  (List.range cfg.len).any fun r =>
    (List.range cfg.len).any fun c =>
      decide (c ≠ r) && debounce_is_pressed (g (roundrobin.state_index cfg.len r c))

/-- The debounce result computed for the cell (r, c) of a round that
    starts from grid g: the update of the stored state with the raw sample
    read on column c while row r is driven. -/
def round_cell_update (cfg : kscan_config) (env : gpio_env)
    (g : Nat → debounce_state) (r c : Nat) : debounce_state :=
  debounce_update (g (roundrobin.state_index cfg.len r c)) (env.pin_get r c)
    cfg.debounce_scan_period_ms cfg.debounce_config

/-- The scan-loop state reached from grid g after fully processing the
    first k rows of a round (and none of the later rows). -/
def row_scan_to (cfg : kscan_config) (env : gpio_env) (cb : Option Nat)
    (g : Nat → debounce_state) (k : Nat) : scan_state :=
  ((List.range cfg.len).take k).foldl
    (fun st r => roundrobin.scan_row cfg env cb r st)
    { grid := g, events := [], continue_scan := false, null_deref := false }

/-- The GPIO actions of the interrupt-mode idle entry after the interrupt
    is re-armed: every matrix pin configured as output and driven to 1, in
    pin order. -/
def idle_drive_actions (len : Nat) : List gpio_action :=
  (List.range len).flatMap fun i =>
    [gpio_action.configure_out i, gpio_action.set_val i 1]

/-- Strict lexicographic order on the (row, col) address of two callback
    events. -/
def event_lex_lt (a b : Nat × Nat × Bool) : Prop :=
  a.1 < b.1 ∨ (a.1 = b.1 ∧ a.2.1 < b.2.1)

/-- The callbacks one processed cell contributes: one event when the cell
    reports changed and a callback is installed, none otherwise. -/
def cell_event_list (cb : Option Nat) (r c : Nat) (s : debounce_state) :
    List (Nat × Nat × Bool) :=
  match cb with
  | some _ => if s.changed then [(r, c, s.pressed)] else []
  | none => []

/-- Whether one processed cell dereferences an absent callback: it reports
    changed while no callback is installed. -/
def cell_nd (cb : Option Nat) (s : debounce_state) : Bool :=
  cb.isNone && s.changed

/-- The callbacks delivered while row r is driven and the columns of L are
    read, for a round starting from grid g. -/
def row_events (cfg : kscan_config) (env : gpio_env) (cb : Option Nat)
    (g : Nat → debounce_state) (r : Nat) (L : List Nat) :
    List (Nat × Nat × Bool) :=
  L.flatMap fun c =>
    if c = r then [] else cell_event_list cb r c (round_cell_update cfg env g r c)

/-- Whether some off-diagonal cell of row r over the columns of L is
    reported active by its debounce update, for a round starting from g. -/
def row_any_active (cfg : kscan_config) (env : gpio_env)
    (g : Nat → debounce_state) (r : Nat) (L : List Nat) : Bool :=
  L.any fun c => decide (c ≠ r) && debounce_is_active (round_cell_update cfg env g r c)

/-- Whether some off-diagonal cell of row r over the columns of L reports
    changed after its debounce update, for a round starting from g. -/
def row_any_changed (cfg : kscan_config) (env : gpio_env)
    (g : Nat → debounce_state) (r : Nat) (L : List Nat) : Bool :=
  L.any fun c => decide (c ≠ r) && (round_cell_update cfg env g r c).changed

/-- The callbacks delivered by the rows of R of a round starting from g,
    in order. -/
def round_events (cfg : kscan_config) (env : gpio_env) (cb : Option Nat)
    (g : Nat → debounce_state) (R : List Nat) : List (Nat × Nat × Bool) :=
  R.flatMap fun r => row_events cfg env cb g r (List.range cfg.len)

/-- Whether some off-diagonal cell of the rows of R is reported active by
    its debounce update, for a round starting from g. -/
def round_any_active (cfg : kscan_config) (env : gpio_env)
    (g : Nat → debounce_state) (R : List Nat) : Bool :=
  R.any fun r => row_any_active cfg env g r (List.range cfg.len)

/-- Whether some off-diagonal cell of the rows of R reports changed after
    its debounce update, for a round starting from g. -/
def round_any_changed (cfg : kscan_config) (env : gpio_env)
    (g : Nat → debounce_state) (R : List Nat) : Bool :=
  R.any fun r => row_any_changed cfg env g r (List.range cfg.len)

/-- A two-pin polling configuration used to evaluate the model on concrete
    inputs (spec section 8 suggests press 5 ms, release 5 ms, scan period
    1 ms). -/
def wit_cfg_poll : kscan_config :=
  { len := 2,
    debounce_config := { debounce_press_ms := 5, debounce_release_ms := 5 },
    debounce_scan_period_ms := 1, poll_period_ms := 10, use_interrupt := false }

/-- The two-pin configuration in interrupt mode. -/
def wit_cfg_intr : kscan_config :=
  { len := 2,
    debounce_config := { debounce_press_ms := 5, debounce_release_ms := 5 },
    debounce_scan_period_ms := 1, poll_period_ms := 10, use_interrupt := true }

/-- The two-pin polling configuration with a zero press threshold, so a
    single raw 1 sample immediately reports a press. -/
def wit_cfg_fast : kscan_config :=
  { len := 2,
    debounce_config := { debounce_press_ms := 0, debounce_release_ms := 5 },
    debounce_scan_period_ms := 1, poll_period_ms := 10, use_interrupt := false }

/-- An environment in which every GPIO call succeeds and every sample
    reads 0. -/
def wit_env_ok : gpio_env :=
  { ready := fun _ => true, configure_input := fun _ => 0,
    configure_output := fun _ => 0, set_pin := fun _ _ => 0,
    pin_get := fun _ _ => false, intr_configure := fun _ => 0 }

/-- An environment in which every GPIO call succeeds and every sample
    reads 1. -/
def wit_env_pressed : gpio_env :=
  { ready := fun _ => true, configure_input := fun _ => 0,
    configure_output := fun _ => 0, set_pin := fun _ _ => 0,
    pin_get := fun _ _ => true, intr_configure := fun _ => 0 }

/-- An environment whose GPIO ports are not ready, so the defensive
    set-all-as-input fails with -ENODEV at the first pin. -/
def wit_env_notready : gpio_env :=
  { ready := fun _ => false, configure_input := fun _ => 0,
    configure_output := fun _ => 0, set_pin := fun _ _ => 0,
    pin_get := fun _ _ => false, intr_configure := fun _ => 0 }

/-- An environment in which every sample reads 1 and configuring pin 1 as
    output fails, so a round errors after fully scanning row 0. -/
def wit_env_outfail : gpio_env :=
  { ready := fun _ => true, configure_input := fun _ => 0,
    configure_output := fun i => if i = 1 then -5 else 0, set_pin := fun _ _ => 0,
    pin_get := fun _ _ => true, intr_configure := fun _ => 0 }

/-- Driver data with an installed callback, scan timestamp 100 and all
    cells in the released state. -/
def wit_data : kscan_data :=
  { callback := some 0, scan_time := 100, grid := fun _ => debounce_init }

/-- Driver data before any successful configure: no callback installed. -/
def wit_data_none : kscan_data :=
  { callback := none, scan_time := 100, grid := fun _ => debounce_init }

theorem debounce_inv_init (cfg : debounce_config) : debounce_inv debounce_init cfg :=
  Or.inl rfl

theorem debounce_inv_update (st : debounce_state) (sample : Bool) (e : Nat)
    (cfg : debounce_config) (h : debounce_inv st cfg) :
    debounce_inv (debounce_update st sample e cfg) cfg := by
  unfold debounce_update
  by_cases hs : sample = st.pressed
  · rw [if_pos hs]
    rcases h with h0 | hlt
    · exact Or.inl (by simp [h0])
    · exact Or.inr (by
        simpa [debounce_threshold] using
          lt_of_le_of_lt (Nat.sub_le st.counter 1) hlt)
  · rw [if_neg hs]
    by_cases hth : debounce_threshold st cfg ≤ min (st.counter + e) DEBOUNCE_COUNTER_MAX
    · rw [if_pos hth]
      exact Or.inl rfl
    · rw [if_neg hth]
      exact Or.inr (by simpa [debounce_threshold] using Nat.lt_of_not_le hth)

theorem debounce_is_active_eq (st : debounce_state) (cfg : debounce_config)
    (h : debounce_inv st cfg) :
    debounce_is_active st = (cell_active st cfg || st.pressed) := by
  rcases h with h0 | hlt
  · simp [debounce_is_active, cell_active, h0]
  · by_cases hc : 0 < st.counter
    · simp [debounce_is_active, cell_active, hc, hlt, Bool.or_comm]
    · simp [debounce_is_active, cell_active, hc]

theorem state_index_mod (len r c : Nat) (hr : r < len) :
    roundrobin.state_index len r c % len = r := by
  unfold roundrobin.state_index
  rw [Nat.mul_comm, Nat.mul_add_mod]
  exact Nat.mod_eq_of_lt hr

theorem state_index_div (len r c : Nat) (hr : r < len) :
    roundrobin.state_index len r c / len = c := by
  unfold roundrobin.state_index
  rw [Nat.mul_comm, Nat.mul_add_div (Nat.lt_of_le_of_lt (Nat.zero_le r) hr),
    Nat.div_eq_of_lt hr, Nat.add_zero]

theorem state_index_eq_self (len r i : Nat) (h : i % len = r) :
    roundrobin.state_index len r (i / len) = i := by
  unfold roundrobin.state_index
  rw [← h, Nat.mul_comm]
  exact Nat.div_add_mod i len

theorem state_index_col_inj (len r c c' : Nat) (hlen : 0 < len)
    (h : roundrobin.state_index len r c = roundrobin.state_index len r c') :
    c = c' := by
  unfold roundrobin.state_index at h
  exact Nat.eq_of_mul_eq_mul_right hlen (Nat.add_right_cancel h)

theorem round_cell_update_congr (cfg : kscan_config) (env : gpio_env)
    (g1 g2 : Nat → debounce_state) (r c : Nat)
    (h : g1 (roundrobin.state_index cfg.len r c) = g2 (roundrobin.state_index cfg.len r c)) :
    round_cell_update cfg env g1 r c = round_cell_update cfg env g2 r c := by
  unfold round_cell_update
  rw [h]

theorem list_any_congr {α : Type} (L : List α) (f g : α → Bool)
    (h : ∀ x ∈ L, f x = g x) : L.any f = L.any g := by
  induction L with
  | nil => rfl
  | cons a L ih =>
    rw [List.any_cons, List.any_cons, h a (List.mem_cons_self a L),
      ih (fun x hx => h x (List.mem_cons_of_mem a hx))]

theorem list_any_or {α : Type} (L : List α) (f g : α → Bool) :
    (L.any fun x => f x || g x) = (L.any f || L.any g) := by
  induction L with
  | nil => rfl
  | cons a L ih =>
    rw [List.any_cons, List.any_cons, List.any_cons, ih]
    cases f a <;> cases g a <;> simp

theorem scan_cell_eq (cfg : kscan_config) (env : gpio_env) (cb : Option Nat)
    (r c : Nat) (st : scan_state) (hc : c ≠ r) :
    roundrobin.scan_cell cfg env cb r st c =
      { grid := state_store st.grid (roundrobin.state_index cfg.len r c)
          (round_cell_update cfg env st.grid r c),
        events := st.events ++ cell_event_list cb r c (round_cell_update cfg env st.grid r c),
        continue_scan := st.continue_scan ||
          debounce_is_active (round_cell_update cfg env st.grid r c),
        null_deref := st.null_deref ||
          cell_nd cb (round_cell_update cfg env st.grid r c) } := by
  unfold roundrobin.scan_cell
  rw [if_neg hc]
  simp only [debounce_get_changed, debounce_is_pressed]
  cases cb with
  | none =>
    by_cases hch : (round_cell_update cfg env st.grid r c).changed
    · simp [round_cell_update, cell_event_list, cell_nd, hch] at hch ⊢
      simp [hch]
    · simp [round_cell_update, cell_event_list, cell_nd, hch] at hch ⊢
      simp [hch]
  | some f =>
    by_cases hch : (round_cell_update cfg env st.grid r c).changed
    · simp [round_cell_update, cell_event_list, cell_nd, hch] at hch ⊢
      simp [hch]
    · simp [round_cell_update, cell_event_list, cell_nd, hch] at hch ⊢
      simp [hch]

theorem row_events_congr (cfg : kscan_config) (env : gpio_env) (cb : Option Nat)
    (r : Nat) (L : List Nat) (g1 g2 : Nat → debounce_state)
    (h : ∀ c ∈ L, c ≠ r →
      g1 (roundrobin.state_index cfg.len r c) = g2 (roundrobin.state_index cfg.len r c)) :
    row_events cfg env cb g1 r L = row_events cfg env cb g2 r L := by
  induction L with
  | nil => rfl
  | cons c L ih =>
    simp only [row_events, List.flatMap_cons]
    have tail : row_events cfg env cb g1 r L = row_events cfg env cb g2 r L :=
      ih (fun c' hc' => h c' (List.mem_cons_of_mem c hc'))
    simp only [row_events] at tail
    rw [tail]
    congr 1
    by_cases hc : c = r
    · rw [if_pos hc, if_pos hc]
    · rw [if_neg hc, if_neg hc,
        round_cell_update_congr cfg env g1 g2 r c (h c (List.mem_cons_self c L) hc)]

theorem row_any_active_congr (cfg : kscan_config) (env : gpio_env)
    (r : Nat) (L : List Nat) (g1 g2 : Nat → debounce_state)
    (h : ∀ c ∈ L, c ≠ r →
      g1 (roundrobin.state_index cfg.len r c) = g2 (roundrobin.state_index cfg.len r c)) :
    row_any_active cfg env g1 r L = row_any_active cfg env g2 r L := by
  unfold row_any_active
  refine list_any_congr L _ _ (fun c hc => ?_)
  by_cases hcr : c = r
  · simp [hcr]
  · rw [round_cell_update_congr cfg env g1 g2 r c (h c hc hcr)]

theorem row_any_changed_congr (cfg : kscan_config) (env : gpio_env)
    (r : Nat) (L : List Nat) (g1 g2 : Nat → debounce_state)
    (h : ∀ c ∈ L, c ≠ r →
      g1 (roundrobin.state_index cfg.len r c) = g2 (roundrobin.state_index cfg.len r c)) :
    row_any_changed cfg env g1 r L = row_any_changed cfg env g2 r L := by
  unfold row_any_changed
  refine list_any_congr L _ _ (fun c hc => ?_)
  by_cases hcr : c = r
  · simp [hcr]
  · rw [round_cell_update_congr cfg env g1 g2 r c (h c hc hcr)]

theorem scan_row_foldl_char (cfg : kscan_config) (env : gpio_env) (cb : Option Nat)
    (r : Nat) (hr : r < cfg.len) :
    ∀ L : List Nat, L.Nodup → (∀ c ∈ L, c < cfg.len) → ∀ st : scan_state,
      ((L.foldl (roundrobin.scan_cell cfg env cb r) st).grid = fun i =>
        if i % cfg.len = r ∧ i / cfg.len ∈ L ∧ i / cfg.len ≠ r
        then round_cell_update cfg env st.grid r (i / cfg.len)
        else st.grid i) ∧
      ((L.foldl (roundrobin.scan_cell cfg env cb r) st).events =
        st.events ++ row_events cfg env cb st.grid r L) ∧
      ((L.foldl (roundrobin.scan_cell cfg env cb r) st).continue_scan =
        (st.continue_scan || row_any_active cfg env st.grid r L)) ∧
      ((L.foldl (roundrobin.scan_cell cfg env cb r) st).null_deref =
        (st.null_deref || (cb.isNone && row_any_changed cfg env st.grid r L))) := by
  intro L
  induction L with
  | nil =>
    intro _ _ st
    refine ⟨?_, by simp [row_events], by simp [row_any_active], by simp [row_any_changed]⟩
    funext i
    simp
  | cons c L ih =>
    intro hnd hb st
    obtain ⟨hcL, hndL⟩ := List.nodup_cons.mp hnd
    have hbL : ∀ x ∈ L, x < cfg.len := fun x hx => hb x (List.mem_cons_of_mem c hx)
    have hlen0 : 0 < cfg.len := Nat.lt_of_le_of_lt (Nat.zero_le r) hr
    rw [List.foldl_cons]
    by_cases hcr : c = r
    · subst hcr
      have hcell : roundrobin.scan_cell cfg env cb c st c = st := by
        unfold roundrobin.scan_cell
        rw [if_pos rfl]
      rw [hcell]
      obtain ⟨hg, he, hcont, hnd2⟩ := ih hndL hbL st
      refine ⟨?_, ?_, ?_, ?_⟩
      · rw [hg]
        funext i
        by_cases h3 : i / cfg.len = c
        · simp [h3]
        · simp [h3, List.mem_cons]
      · rw [he]
        congr 1
        simp [row_events, List.flatMap_cons]
      · rw [hcont]
        congr 1
        simp [row_any_active, List.any_cons]
      · rw [hnd2]
        congr 1
        simp [row_any_changed, List.any_cons]
    · obtain ⟨hg, he, hcont, hnd2⟩ := ih hndL hbL (roundrobin.scan_cell cfg env cb r st c)
      rw [scan_cell_eq cfg env cb r c st hcr] at hg he hcont hnd2 ⊢
      dsimp only at hg he hcont hnd2
      have hmod : roundrobin.state_index cfg.len r c % cfg.len = r :=
        state_index_mod cfg.len r c hr
      have hdiv : roundrobin.state_index cfg.len r c / cfg.len = c :=
        state_index_div cfg.len r c hr
      have hagree : ∀ c' ∈ L, c' ≠ r →
          state_store st.grid (roundrobin.state_index cfg.len r c)
              (round_cell_update cfg env st.grid r c)
              (roundrobin.state_index cfg.len r c') =
            st.grid (roundrobin.state_index cfg.len r c') := by
        intro c' hc' _
        have hne : roundrobin.state_index cfg.len r c' ≠ roundrobin.state_index cfg.len r c :=
          fun hEq => hcL (state_index_col_inj cfg.len r c' c hlen0 hEq ▸ hc')
        simp [state_store, hne]
      refine ⟨?_, ?_, ?_, ?_⟩
      · rw [hg]
        funext i
        by_cases h1 : i % cfg.len = r
        · by_cases h2 : i / cfg.len = c
          · have hi : roundrobin.state_index cfg.len r c = i := by
              rw [← h2]
              exact state_index_eq_self cfg.len r i h1
            have hcondL : ¬(i % cfg.len = r ∧ i / cfg.len ∈ L ∧ i / cfg.len ≠ r) := by
              rintro ⟨-, hmem, -⟩
              rw [h2] at hmem
              exact hcL hmem
            rw [if_neg hcondL,
              if_pos ⟨h1, by rw [h2]; exact List.mem_cons_self c L, by rw [h2]; exact hcr⟩,
              h2]
            simp [state_store, ← hi]
          · have hne : i ≠ roundrobin.state_index cfg.len r c :=
              fun hEq => h2 (by rw [hEq, hdiv])
            have hst1i :
                state_store st.grid (roundrobin.state_index cfg.len r c)
                  (round_cell_update cfg env st.grid r c) i = st.grid i := by
              simp [state_store, hne]
            by_cases hcond : i % cfg.len = r ∧ i / cfg.len ∈ L ∧ i / cfg.len ≠ r
            · rw [if_pos hcond,
                if_pos ⟨hcond.1, List.mem_cons_of_mem c hcond.2.1, hcond.2.2⟩]
              apply round_cell_update_congr
              rw [state_index_eq_self cfg.len r i h1]
              exact hst1i
            · have hcond2 : ¬(i % cfg.len = r ∧ i / cfg.len ∈ c :: L ∧ i / cfg.len ≠ r) := by
                rintro ⟨ha, hb2, hc2⟩
                rcases List.mem_cons.mp hb2 with h | h
                · exact h2 h
                · exact hcond ⟨ha, h, hc2⟩
              rw [if_neg hcond, if_neg hcond2]
              exact hst1i
        · have hne : i ≠ roundrobin.state_index cfg.len r c :=
            fun hEq => h1 (by rw [hEq, hmod])
          rw [if_neg (fun h => h1 h.1), if_neg (fun h => h1 h.1)]
          simp [state_store, hne]
      · rw [he, row_events_congr cfg env cb r L _ st.grid hagree, List.append_assoc]
        congr 1
        simp only [row_events, List.flatMap_cons]
        rw [if_neg hcr]
      · rw [hcont, row_any_active_congr cfg env r L _ st.grid hagree]
        simp [row_any_active, List.any_cons, hcr, Bool.or_assoc]
      · rw [hnd2, row_any_changed_congr cfg env r L _ st.grid hagree]
        simp [row_any_changed, List.any_cons, cell_nd, hcr, Bool.or_assoc,
          Bool.and_or_distrib_left]

theorem round_events_congr (cfg : kscan_config) (env : gpio_env) (cb : Option Nat)
    (R : List Nat) (g1 g2 : Nat → debounce_state)
    (h : ∀ r ∈ R, ∀ c ∈ List.range cfg.len, c ≠ r →
      g1 (roundrobin.state_index cfg.len r c) = g2 (roundrobin.state_index cfg.len r c)) :
    round_events cfg env cb g1 R = round_events cfg env cb g2 R := by
  induction R with
  | nil => rfl
  | cons r R ih =>
    simp only [round_events, List.flatMap_cons]
    have tail := ih (fun r' hr' => h r' (List.mem_cons_of_mem r hr'))
    simp only [round_events] at tail
    rw [tail, row_events_congr cfg env cb r (List.range cfg.len) g1 g2
      (h r (List.mem_cons_self r R))]

theorem round_any_active_congr (cfg : kscan_config) (env : gpio_env)
    (R : List Nat) (g1 g2 : Nat → debounce_state)
    (h : ∀ r ∈ R, ∀ c ∈ List.range cfg.len, c ≠ r →
      g1 (roundrobin.state_index cfg.len r c) = g2 (roundrobin.state_index cfg.len r c)) :
    round_any_active cfg env g1 R = round_any_active cfg env g2 R := by
  unfold round_any_active
  exact list_any_congr R _ _ (fun r hr =>
    row_any_active_congr cfg env r (List.range cfg.len) g1 g2 (h r hr))

theorem round_any_changed_congr (cfg : kscan_config) (env : gpio_env)
    (R : List Nat) (g1 g2 : Nat → debounce_state)
    (h : ∀ r ∈ R, ∀ c ∈ List.range cfg.len, c ≠ r →
      g1 (roundrobin.state_index cfg.len r c) = g2 (roundrobin.state_index cfg.len r c)) :
    round_any_changed cfg env g1 R = round_any_changed cfg env g2 R := by
  unfold round_any_changed
  exact list_any_congr R _ _ (fun r hr =>
    row_any_changed_congr cfg env r (List.range cfg.len) g1 g2 (h r hr))

theorem scan_rows_foldl_char (cfg : kscan_config) (env : gpio_env) (cb : Option Nat) :
    ∀ R : List Nat, R.Nodup → (∀ r ∈ R, r < cfg.len) → ∀ st : scan_state,
      ((R.foldl (fun s r => roundrobin.scan_row cfg env cb r s) st).grid = fun i =>
        if i % cfg.len ∈ R ∧ i / cfg.len < cfg.len ∧ i / cfg.len ≠ i % cfg.len
        then round_cell_update cfg env st.grid (i % cfg.len) (i / cfg.len)
        else st.grid i) ∧
      ((R.foldl (fun s r => roundrobin.scan_row cfg env cb r s) st).events =
        st.events ++ round_events cfg env cb st.grid R) ∧
      ((R.foldl (fun s r => roundrobin.scan_row cfg env cb r s) st).continue_scan =
        (st.continue_scan || round_any_active cfg env st.grid R)) ∧
      ((R.foldl (fun s r => roundrobin.scan_row cfg env cb r s) st).null_deref =
        (st.null_deref || (cb.isNone && round_any_changed cfg env st.grid R))) := by
  intro R
  induction R with
  | nil =>
    intro _ _ st
    refine ⟨?_, by simp [round_events], by simp [round_any_active],
      by simp [round_any_changed]⟩
    funext i
    simp
  | cons r R ih =>
    intro hnd hb st
    obtain ⟨hrR, hndR⟩ := List.nodup_cons.mp hnd
    have hbR : ∀ x ∈ R, x < cfg.len := fun x hx => hb x (List.mem_cons_of_mem r hx)
    have hr : r < cfg.len := hb r (List.mem_cons_self r R)
    have hlen0 : 0 < cfg.len := Nat.lt_of_le_of_lt (Nat.zero_le r) hr
    rw [List.foldl_cons]
    obtain ⟨hg1, he1, hcont1, hnd1⟩ := scan_row_foldl_char cfg env cb r hr
      (List.range cfg.len) (List.nodup_range cfg.len)
      (fun c hc => List.mem_range.mp hc) st
    rw [show ((List.range cfg.len).foldl (roundrobin.scan_cell cfg env cb r) st) =
        roundrobin.scan_row cfg env cb r st from rfl] at hg1 he1 hcont1 hnd1
    obtain ⟨hg, he, hcont, hnd2⟩ := ih hndR hbR (roundrobin.scan_row cfg env cb r st)
    have hagree : ∀ r' ∈ R, ∀ c' ∈ List.range cfg.len, c' ≠ r' →
        (roundrobin.scan_row cfg env cb r st).grid (roundrobin.state_index cfg.len r' c') =
          st.grid (roundrobin.state_index cfg.len r' c') := by
      intro r' hr' c' _ _
      have hr'len : r' < cfg.len := hbR r' hr'
      have hner : r' ≠ r := fun hEq => hrR (hEq ▸ hr')
      simp only [hg1]
      have hcond : ¬(roundrobin.state_index cfg.len r' c' % cfg.len = r ∧
          roundrobin.state_index cfg.len r' c' / cfg.len ∈ List.range cfg.len ∧
          roundrobin.state_index cfg.len r' c' / cfg.len ≠ r) := by
        rintro ⟨hm, -, -⟩
        rw [state_index_mod cfg.len r' c' hr'len] at hm
        exact hner hm
      rw [if_neg hcond]
    refine ⟨?_, ?_, ?_, ?_⟩
    · rw [hg]
      funext i
      by_cases h1 : i % cfg.len ∈ R
      · have hner : i % cfg.len ≠ r := fun hEq => hrR (hEq ▸ h1)
        by_cases h2 : i / cfg.len < cfg.len ∧ i / cfg.len ≠ i % cfg.len
        · rw [if_pos ⟨h1, h2⟩,
            if_pos ⟨List.mem_cons_of_mem r h1, h2⟩]
          apply round_cell_update_congr
          simp only [hg1]
          have hj : roundrobin.state_index cfg.len (i % cfg.len) (i / cfg.len) % cfg.len =
              i % cfg.len :=
            state_index_mod cfg.len (i % cfg.len) (i / cfg.len) (Nat.mod_lt i hlen0)
          rw [if_neg (fun h => hner (by rw [← hj]; exact h.1))]
        · rw [if_neg (fun h => h2 h.2), if_neg (fun h => h2 h.2)]
          simp only [hg1]
          rw [if_neg (fun h => hner h.1)]
      · by_cases h3 : i % cfg.len = r
        · by_cases h2 : i / cfg.len < cfg.len ∧ i / cfg.len ≠ i % cfg.len
          · rw [if_neg (fun h => h1 h.1),
              if_pos ⟨List.mem_cons.mpr (Or.inl h3), h2⟩]
            simp only [hg1]
            rw [if_pos ⟨h3, List.mem_range.mpr h2.1, h3 ▸ h2.2⟩, h3]
          · rw [if_neg (fun h => h1 h.1), if_neg (fun h => h2 h.2)]
            simp only [hg1]
            have : ¬(i % cfg.len = r ∧ i / cfg.len ∈ List.range cfg.len ∧
                i / cfg.len ≠ r) := by
              rintro ⟨hm, hmem, hne⟩
              exact h2 ⟨List.mem_range.mp hmem, hm ▸ hne⟩
            rw [if_neg this]
        · have hmem : i % cfg.len ∉ r :: R := by
            intro h
            rcases List.mem_cons.mp h with h | h
            · exact h3 h
            · exact h1 h
          rw [if_neg (fun h => h1 h.1), if_neg (fun h => hmem h.1)]
          simp only [hg1]
          rw [if_neg (fun h => h3 h.1)]
    · rw [he, he1, round_events_congr cfg env cb R _ st.grid hagree, List.append_assoc]
      congr 1
    · rw [hcont, hcont1, round_any_active_congr cfg env R _ st.grid hagree]
      simp [round_any_active, List.any_cons, Bool.or_assoc]
    · rw [hnd2, hnd1, round_any_changed_congr cfg env R _ st.grid hagree]
      simp [round_any_changed, List.any_cons, Bool.or_assoc, Bool.and_or_distrib_left]

theorem scan_rows_split (cfg : kscan_config) (env : gpio_env) (cb : Option Nat) :
    ∀ (R : List Nat) (st : scan_state) (acts : List gpio_action),
      ∃ R1 R2 : List Nat, R = R1 ++ R2 ∧
        (roundrobin.scan_rows cfg env cb R st acts).1 =
          R1.foldl (fun s r => roundrobin.scan_row cfg env cb r s) st ∧
        ((roundrobin.scan_rows cfg env cb R st acts).2.2 = 0 → R2 = []) := by
  intro R
  induction R with
  | nil =>
    intro st acts
    exact ⟨[], [], rfl, rfl, fun _ => rfl⟩
  | cons r R ih =>
    intro st acts
    by_cases h1 : (roundrobin.kscan_round_robin_set_as_output env r).2 ≠ 0
    · refine ⟨[], r :: R, rfl, ?_, ?_⟩
      · simp [roundrobin.scan_rows, h1]
      · intro h0
        exfalso
        simp [roundrobin.scan_rows, h1] at h0
    · by_cases h2 : (roundrobin.kscan_round_robin_set_as_input env r).2 ≠ 0
      · refine ⟨[r], R, rfl, ?_, ?_⟩
        · simp [roundrobin.scan_rows, h1, h2, List.foldl_cons]
        · intro h0
          exfalso
          simp [roundrobin.scan_rows, h1, h2] at h0
      · obtain ⟨R1, R2, hsplit, hst, hret⟩ := ih (roundrobin.scan_row cfg env cb r st)
          (acts ++ (roundrobin.kscan_round_robin_set_as_output env r).1 ++
            (roundrobin.kscan_round_robin_set_as_input env r).1)
        refine ⟨r :: R1, R2, by rw [List.cons_append, ← hsplit], ?_, ?_⟩
        · rw [List.foldl_cons]
          simp only [roundrobin.scan_rows]
          simp only [if_neg h1, if_neg h2]
          exact hst
        · intro h0
          apply hret
          simp only [roundrobin.scan_rows, if_neg h1, if_neg h2] at h0
          exact h0


theorem read_success_char (cfg : kscan_config) (env : gpio_env) (data : kscan_data)
    (h : (roundrobin.kscan_round_robin_read cfg env data).ret = 0) :
    ((roundrobin.kscan_round_robin_read cfg env data).grid = fun i =>
      if i % cfg.len ∈ List.range cfg.len ∧ i / cfg.len < cfg.len ∧
          i / cfg.len ≠ i % cfg.len
      then round_cell_update cfg env data.grid (i % cfg.len) (i / cfg.len)
      else data.grid i) ∧
    ((roundrobin.kscan_round_robin_read cfg env data).events =
      round_events cfg env data.callback data.grid (List.range cfg.len)) ∧
    ((roundrobin.kscan_round_robin_read cfg env data).continue_scan =
      some (round_any_active cfg env data.grid (List.range cfg.len))) ∧
    ((roundrobin.kscan_round_robin_read cfg env data).null_deref =
      (data.callback.isNone && round_any_changed cfg env data.grid (List.range cfg.len))) := by
  simp only [roundrobin.kscan_round_robin_read] at h ⊢
  by_cases h0 : (roundrobin.kscan_round_robin_set_all_as_input env cfg.len).2 ≠ 0
  · rw [if_pos h0] at h
    exact absurd h h0
  · rw [if_neg h0] at h ⊢
    by_cases h1 : (roundrobin.scan_rows cfg env data.callback (List.range cfg.len)
        { grid := data.grid, events := [], continue_scan := false, null_deref := false }
        []).2.2 ≠ 0
    · rw [if_pos h1] at h
      exact absurd h h1
    · rw [if_neg h1] at h ⊢
      obtain ⟨R1, R2, hsplit, hst, hret⟩ := scan_rows_split cfg env data.callback
        (List.range cfg.len)
        { grid := data.grid, events := [], continue_scan := false, null_deref := false } []
      have hR2 : R2 = [] := hret (not_ne_iff.mp h1)
      have hR1 : R1 = List.range cfg.len := by
        rw [hsplit, hR2, List.append_nil]
      rw [hR1] at hst
      obtain ⟨hg, he, hcont, hnd⟩ := scan_rows_foldl_char cfg env data.callback
        (List.range cfg.len) (List.nodup_range cfg.len)
        (fun r hr => List.mem_range.mp hr)
        { grid := data.grid, events := [], continue_scan := false, null_deref := false }
      by_cases h2 : (roundrobin.scan_rows cfg env data.callback (List.range cfg.len)
          { grid := data.grid, events := [], continue_scan := false, null_deref := false }
          []).1.continue_scan = true
      · rw [if_pos h2]
        refine ⟨?_, ?_, ?_, ?_⟩
        · show (roundrobin.scan_rows cfg env data.callback (List.range cfg.len)
            { grid := data.grid, events := [], continue_scan := false, null_deref := false }
            []).1.grid = _
          rw [hst, hg]
        · show (roundrobin.scan_rows cfg env data.callback (List.range cfg.len)
            { grid := data.grid, events := [], continue_scan := false, null_deref := false }
            []).1.events = _
          rw [hst, he]
          simp
        · show some true = _
          rw [hst, hcont] at h2
          simp only [Bool.false_or] at h2
          rw [h2]
        · show (roundrobin.scan_rows cfg env data.callback (List.range cfg.len)
            { grid := data.grid, events := [], continue_scan := false, null_deref := false }
            []).1.null_deref = _
          rw [hst, hnd]
          simp
      · rw [if_neg h2]
        refine ⟨?_, ?_, ?_, ?_⟩
        · show (roundrobin.scan_rows cfg env data.callback (List.range cfg.len)
            { grid := data.grid, events := [], continue_scan := false, null_deref := false }
            []).1.grid = _
          rw [hst, hg]
        · show (roundrobin.scan_rows cfg env data.callback (List.range cfg.len)
            { grid := data.grid, events := [], continue_scan := false, null_deref := false }
            []).1.events = _
          rw [hst, he]
          simp
        · show some false = _
          rw [Bool.not_eq_true] at h2
          rw [hst, hcont] at h2
          simp only [Bool.false_or] at h2
          rw [h2]
        · show (roundrobin.scan_rows cfg env data.callback (List.range cfg.len)
            { grid := data.grid, events := [], continue_scan := false, null_deref := false }
            []).1.null_deref = _
          rw [hst, hnd]
          simp

theorem read_error_sched_none (cfg : kscan_config) (env : gpio_env) (data : kscan_data)
    (h : (roundrobin.kscan_round_robin_read cfg env data).ret ≠ 0) :
    (roundrobin.kscan_round_robin_read cfg env data).sched = none := by
  simp only [roundrobin.kscan_round_robin_read] at h ⊢
  by_cases h0 : (roundrobin.kscan_round_robin_set_all_as_input env cfg.len).2 ≠ 0
  · rw [if_pos h0]
  · rw [if_neg h0] at h ⊢
    by_cases h1 : (roundrobin.scan_rows cfg env data.callback (List.range cfg.len)
        { grid := data.grid, events := [], continue_scan := false, null_deref := false }
        []).2.2 ≠ 0
    · rw [if_pos h1]
    · rw [if_neg h1] at h
      exfalso
      apply h
      by_cases h2 : (roundrobin.scan_rows cfg env data.callback (List.range cfg.len)
          { grid := data.grid, events := [], continue_scan := false, null_deref := false }
          []).1.continue_scan = true
      · rw [if_pos h2]
      · rw [if_neg h2]

theorem read_error_prefix (cfg : kscan_config) (env : gpio_env) (data : kscan_data)
    (h : (roundrobin.kscan_round_robin_read cfg env data).ret ≠ 0) :
    ∃ k, k ≤ cfg.len ∧
      (roundrobin.kscan_round_robin_read cfg env data).grid =
        (row_scan_to cfg env data.callback data.grid k).grid ∧
      (roundrobin.kscan_round_robin_read cfg env data).events =
        (row_scan_to cfg env data.callback data.grid k).events := by
  simp only [roundrobin.kscan_round_robin_read] at h ⊢
  by_cases h0 : (roundrobin.kscan_round_robin_set_all_as_input env cfg.len).2 ≠ 0
  · rw [if_pos h0]
    exact ⟨0, Nat.zero_le cfg.len, by simp [row_scan_to], by simp [row_scan_to]⟩
  · rw [if_neg h0] at h ⊢
    by_cases h1 : (roundrobin.scan_rows cfg env data.callback (List.range cfg.len)
        { grid := data.grid, events := [], continue_scan := false, null_deref := false }
        []).2.2 ≠ 0
    · rw [if_pos h1]
      obtain ⟨R1, R2, hsplit, hst, -⟩ := scan_rows_split cfg env data.callback
        (List.range cfg.len)
        { grid := data.grid, events := [], continue_scan := false, null_deref := false } []
      have hlen : R1.length ≤ cfg.len := by
        have := congrArg List.length hsplit
        simp only [List.length_range, List.length_append] at this
        omega
      have htake : (List.range cfg.len).take R1.length = R1 := by
        rw [hsplit]
        exact List.take_left R1 R2
      refine ⟨R1.length, hlen, ?_, ?_⟩
      · show (roundrobin.scan_rows cfg env data.callback (List.range cfg.len)
          { grid := data.grid, events := [], continue_scan := false, null_deref := false }
          []).1.grid = _
        rw [hst, row_scan_to, htake]
      · show (roundrobin.scan_rows cfg env data.callback (List.range cfg.len)
          { grid := data.grid, events := [], continue_scan := false, null_deref := false }
          []).1.events = _
        rw [hst, row_scan_to, htake]
    · rw [if_neg h1] at h
      exfalso
      apply h
      by_cases h2 : (roundrobin.scan_rows cfg env data.callback (List.range cfg.len)
          { grid := data.grid, events := [], continue_scan := false, null_deref := false }
          []).1.continue_scan = true
      · rw [if_pos h2]
      · rw [if_neg h2]

theorem read_events_take (cfg : kscan_config) (env : gpio_env) (data : kscan_data) :
    ∃ k, k ≤ cfg.len ∧
      (roundrobin.kscan_round_robin_read cfg env data).events =
        round_events cfg env data.callback data.grid ((List.range cfg.len).take k) := by
  simp only [roundrobin.kscan_round_robin_read]
  by_cases h0 : (roundrobin.kscan_round_robin_set_all_as_input env cfg.len).2 ≠ 0
  · rw [if_pos h0]
    exact ⟨0, Nat.zero_le cfg.len, by simp [round_events]⟩
  · rw [if_neg h0]
    obtain ⟨R1, R2, hsplit, hst, -⟩ := scan_rows_split cfg env data.callback
      (List.range cfg.len)
      { grid := data.grid, events := [], continue_scan := false, null_deref := false } []
    have hlen : R1.length ≤ cfg.len := by
      have := congrArg List.length hsplit
      simp only [List.length_range, List.length_append] at this
      omega
    have htake : (List.range cfg.len).take R1.length = R1 := by
      rw [hsplit]
      exact List.take_left R1 R2
    have hsub : R1.Sublist (List.range cfg.len) := by
      rw [hsplit]
      exact List.sublist_append_left R1 R2
    obtain ⟨-, heR1, -, -⟩ := scan_rows_foldl_char cfg env data.callback R1
      (List.Nodup.sublist hsub (List.nodup_range cfg.len))
      (fun r hr => List.mem_range.mp (hsub.subset hr))
      { grid := data.grid, events := [], continue_scan := false, null_deref := false }
    have hev : (roundrobin.scan_rows cfg env data.callback (List.range cfg.len)
        { grid := data.grid, events := [], continue_scan := false, null_deref := false }
        []).1.events =
        round_events cfg env data.callback data.grid ((List.range cfg.len).take R1.length) := by
      rw [hst, heR1, htake]
      simp
    refine ⟨R1.length, hlen, ?_⟩
    by_cases h1 : (roundrobin.scan_rows cfg env data.callback (List.range cfg.len)
        { grid := data.grid, events := [], continue_scan := false, null_deref := false }
        []).2.2 ≠ 0
    · rw [if_pos h1]
      exact hev
    · rw [if_neg h1]
      by_cases h2 : (roundrobin.scan_rows cfg env data.callback (List.range cfg.len)
          { grid := data.grid, events := [], continue_scan := false, null_deref := false }
          []).1.continue_scan = true
      · rw [if_pos h2]
        exact hev
      · rw [if_neg h2]
        exact hev

theorem read_null_deref_some (cfg : kscan_config) (env : gpio_env) (data : kscan_data)
    (f : Nat) (h : data.callback = some f) :
    (roundrobin.kscan_round_robin_read cfg env data).null_deref = false := by
  simp only [roundrobin.kscan_round_robin_read]
  by_cases h0 : (roundrobin.kscan_round_robin_set_all_as_input env cfg.len).2 ≠ 0
  · rw [if_pos h0]
  · rw [if_neg h0]
    obtain ⟨R1, R2, hsplit, hst, -⟩ := scan_rows_split cfg env data.callback
      (List.range cfg.len)
      { grid := data.grid, events := [], continue_scan := false, null_deref := false } []
    have hsub : R1.Sublist (List.range cfg.len) := by
      rw [hsplit]
      exact List.sublist_append_left R1 R2
    obtain ⟨-, -, -, hndR1⟩ := scan_rows_foldl_char cfg env data.callback R1
      (List.Nodup.sublist hsub (List.nodup_range cfg.len))
      (fun r hr => List.mem_range.mp (hsub.subset hr))
      { grid := data.grid, events := [], continue_scan := false, null_deref := false }
    have hnd0 : (roundrobin.scan_rows cfg env data.callback (List.range cfg.len)
        { grid := data.grid, events := [], continue_scan := false, null_deref := false }
        []).1.null_deref = false := by
      rw [hst, hndR1]
      simp [h]
    by_cases h1 : (roundrobin.scan_rows cfg env data.callback (List.range cfg.len)
        { grid := data.grid, events := [], continue_scan := false, null_deref := false }
        []).2.2 ≠ 0
    · rw [if_pos h1]
      exact hnd0
    · rw [if_neg h1]
      by_cases h2 : (roundrobin.scan_rows cfg env data.callback (List.range cfg.len)
          { grid := data.grid, events := [], continue_scan := false, null_deref := false }
          []).1.continue_scan = true
      · rw [if_pos h2]
        exact hnd0
      · rw [if_neg h2]
        exact hnd0

theorem cell_event_list_mem (cb : Option Nat) (r c : Nat) (s : debounce_state)
    (e : Nat × Nat × Bool) (h : e ∈ cell_event_list cb r c s) :
    e.1 = r ∧ e.2.1 = c := by
  cases cb with
  | none => exact absurd h (List.not_mem_nil e)
  | some f =>
    unfold cell_event_list at h
    by_cases hch : s.changed
    · rw [if_pos hch] at h
      rw [List.mem_singleton] at h
      rw [h]
      exact ⟨rfl, rfl⟩
    · rw [if_neg hch] at h
      exact absurd h (List.not_mem_nil e)

theorem row_events_mem (cfg : kscan_config) (env : gpio_env) (cb : Option Nat)
    (g : Nat → debounce_state) (r : Nat) (L : List Nat) (e : Nat × Nat × Bool)
    (h : e ∈ row_events cfg env cb g r L) :
    e.1 = r ∧ e.2.1 ∈ L ∧ e.2.1 ≠ r := by
  unfold row_events at h
  rw [List.mem_flatMap] at h
  obtain ⟨c, hc, he⟩ := h
  by_cases hcr : c = r
  · rw [if_pos hcr] at he
    exact absurd he (List.not_mem_nil e)
  · rw [if_neg hcr] at he
    obtain ⟨h1, h2⟩ := cell_event_list_mem cb r c _ e he
    exact ⟨h1, h2 ▸ hc, h2 ▸ hcr⟩

theorem round_events_mem (cfg : kscan_config) (env : gpio_env) (cb : Option Nat)
    (g : Nat → debounce_state) (R : List Nat) (e : Nat × Nat × Bool)
    (h : e ∈ round_events cfg env cb g R) :
    e.1 ∈ R ∧ e.2.1 ∈ List.range cfg.len ∧ e.2.1 ≠ e.1 := by
  unfold round_events at h
  rw [List.mem_flatMap] at h
  obtain ⟨r, hr, he⟩ := h
  obtain ⟨h1, h2, h3⟩ := row_events_mem cfg env cb g r (List.range cfg.len) e he
  exact ⟨h1 ▸ hr, h2, h1 ▸ h3⟩

theorem cell_event_list_pairwise (cb : Option Nat) (r c : Nat) (s : debounce_state)
    (P : Nat × Nat × Bool → Nat × Nat × Bool → Prop) :
    (cell_event_list cb r c s).Pairwise P := by
  cases cb with
  | none => exact List.Pairwise.nil
  | some f =>
    unfold cell_event_list
    by_cases hch : s.changed
    · rw [if_pos hch]
      exact List.pairwise_singleton P (r, c, s.pressed)
    · rw [if_neg hch]
      exact List.Pairwise.nil

theorem row_events_pairwise (cfg : kscan_config) (env : gpio_env) (cb : Option Nat)
    (g : Nat → debounce_state) (r : Nat) :
    ∀ L : List Nat, L.Pairwise (· < ·) →
      (row_events cfg env cb g r L).Pairwise event_lex_lt := by
  intro L
  induction L with
  | nil =>
    intro _
    exact List.Pairwise.nil
  | cons c L ih =>
    intro hp
    obtain ⟨hhead, htail⟩ := List.pairwise_cons.mp hp
    unfold row_events
    rw [List.flatMap_cons]
    rw [List.pairwise_append]
    refine ⟨?_, ih htail, ?_⟩
    · by_cases hcr : c = r
      · rw [if_pos hcr]
        exact List.Pairwise.nil
      · rw [if_neg hcr]
        exact cell_event_list_pairwise cb r c _ event_lex_lt
    · intro a ha b hb
      have hbmem := row_events_mem cfg env cb g r L b hb
      by_cases hcr : c = r
      · rw [if_pos hcr] at ha
        exact absurd ha (List.not_mem_nil a)
      · rw [if_neg hcr] at ha
        obtain ⟨ha1, ha2⟩ := cell_event_list_mem cb r c _ a ha
        exact Or.inr ⟨ha1.trans hbmem.1.symm, ha2 ▸ hhead b.2.1 hbmem.2.1⟩

theorem round_events_pairwise (cfg : kscan_config) (env : gpio_env) (cb : Option Nat)
    (g : Nat → debounce_state) :
    ∀ R : List Nat, R.Pairwise (· < ·) →
      (round_events cfg env cb g R).Pairwise event_lex_lt := by
  intro R
  induction R with
  | nil =>
    intro _
    exact List.Pairwise.nil
  | cons r R ih =>
    intro hp
    obtain ⟨hhead, htail⟩ := List.pairwise_cons.mp hp
    unfold round_events
    rw [List.flatMap_cons]
    rw [List.pairwise_append]
    refine ⟨row_events_pairwise cfg env cb g r (List.range cfg.len)
      (List.pairwise_lt_range cfg.len), ih htail, ?_⟩
    intro a ha b hb
    have ha1 := (row_events_mem cfg env cb g r (List.range cfg.len) a ha).1
    have hb1 := (round_events_mem cfg env cb g R b hb).1
    exact Or.inl (ha1 ▸ hhead b.1 hb1)

theorem read_grid_at (cfg : kscan_config) (env : gpio_env) (data : kscan_data)
    (r c : Nat) (hr : r < cfg.len) (hc : c < cfg.len) (hcr : c ≠ r)
    (hret : (roundrobin.kscan_round_robin_read cfg env data).ret = 0) :
    (roundrobin.kscan_round_robin_read cfg env data).grid
        (roundrobin.state_index cfg.len r c) =
      round_cell_update cfg env data.grid r c := by
  have hg := (read_success_char cfg env data hret).1
  simp only [hg]
  rw [state_index_mod cfg.len r c hr, state_index_div cfg.len r c hr,
    if_pos ⟨List.mem_range.mpr hr, hc, hcr⟩]

theorem round_any_active_eq_any (cfg : kscan_config) (env : gpio_env)
    (data : kscan_data)
    (hinv : ∀ i, debounce_inv (data.grid i) cfg.debounce_config)
    (hret : (roundrobin.kscan_round_robin_read cfg env data).ret = 0) :
    round_any_active cfg env data.grid (List.range cfg.len) =
      (any_active cfg (roundrobin.kscan_round_robin_read cfg env data).grid ||
        any_pressed cfg (roundrobin.kscan_round_robin_read cfg env data).grid) := by
  unfold round_any_active any_active any_pressed
  rw [← list_any_or]
  apply list_any_congr
  intro r hr
  unfold row_any_active
  rw [← list_any_or]
  apply list_any_congr
  intro c hc
  by_cases hcr : c = r
  · simp [hcr]
  · rw [← Bool.and_or_distrib_left]
    congr 1
    rw [read_grid_at cfg env data r c (List.mem_range.mp hr) (List.mem_range.mp hc)
      hcr hret]
    rw [debounce_is_active_eq (round_cell_update cfg env data.grid r c)
      cfg.debounce_config
      (debounce_inv_update _ _ _ _ (hinv (roundrobin.state_index cfg.len r c)))]
    rfl

theorem set_all_outputs_loop_ok (env : gpio_env) (value : Int) :
    ∀ L : List Nat, (∀ i ∈ L, env.configure_output i = 0 ∧ env.set_pin i value = 0) →
      roundrobin.set_all_outputs_loop env value L =
        (L.flatMap (fun i => [gpio_action.configure_out i, gpio_action.set_val i value]), 0) := by
  intro L
  induction L with
  | nil =>
    intro _
    rfl
  | cons i L ih =>
    intro h
    obtain ⟨h1, h2⟩ := h i (List.mem_cons_self i L)
    simp only [roundrobin.set_all_outputs_loop, h1, h2, if_neg (by simp : ¬(0 : Int) ≠ 0)]
    rw [ih (fun j hj => h j (List.mem_cons_of_mem i hj))]
    simp [List.flatMap_cons]

/-- C1: a successful scan round's final continue_scan value — which selects
    fast rescheduling when true and the idle path when false — equals the
    disjunction of any_active and any_pressed over all off-diagonal cells
    of the post-round grid; hence the round reports quiescent (takes the
    idle path) iff after its debounce updates no cell is active and no cell
    is pressed.  The hypothesis is the debouncer invariant of the starting
    grid, which holds of the initial released grid and is preserved by
    every round. -/
theorem C1_quiescent_iff_no_active_no_pressed (cfg : kscan_config) (env : gpio_env)
    (data : kscan_data)
    (hinv : ∀ i, debounce_inv (data.grid i) cfg.debounce_config)
    (hret : (roundrobin.kscan_round_robin_read cfg env data).ret = 0) :
    (roundrobin.kscan_round_robin_read cfg env data).continue_scan =
      some (any_active cfg (roundrobin.kscan_round_robin_read cfg env data).grid ||
        any_pressed cfg (roundrobin.kscan_round_robin_read cfg env data).grid) ∧
    ((roundrobin.kscan_round_robin_read cfg env data).continue_scan = some false ↔
      (any_active cfg (roundrobin.kscan_round_robin_read cfg env data).grid = false ∧
       any_pressed cfg (roundrobin.kscan_round_robin_read cfg env data).grid = false)) := by
  have hcont := (read_success_char cfg env data hret).2.2.1
  have heq := round_any_active_eq_any cfg env data hinv hret
  refine ⟨by rw [hcont, heq], ?_⟩
  rw [hcont, heq]
  constructor
  · intro h
    have hb := Bool.or_eq_false_iff.mp (Option.some_inj.mp h)
    exact ⟨hb.1, hb.2⟩
  · rintro ⟨h1, h2⟩
    rw [h1, h2]
    rfl

theorem C1_witness :
    (∀ i, debounce_inv (wit_data.grid i) wit_cfg_poll.debounce_config) ∧
    (roundrobin.kscan_round_robin_read wit_cfg_poll wit_env_ok wit_data).ret = 0 ∧
    (roundrobin.kscan_round_robin_read wit_cfg_poll wit_env_ok wit_data).continue_scan =
      some (any_active wit_cfg_poll
          (roundrobin.kscan_round_robin_read wit_cfg_poll wit_env_ok wit_data).grid ||
        any_pressed wit_cfg_poll
          (roundrobin.kscan_round_robin_read wit_cfg_poll wit_env_ok wit_data).grid) :=
  ⟨fun _ => Or.inl rfl, by decide,
    (C1_quiescent_iff_no_active_no_pressed wit_cfg_poll wit_env_ok wit_data
      (fun _ => Or.inl rfl) (by decide)).1⟩

/-- C2 (counterexample): with two pins, the index the drivers use for the
    cell (row 0, col 1) is 2, not row * N + col = 1: state_index computes
    col * N + row in both files. -/
theorem C2_counterexample :
    roundrobin.state_index 2 0 1 ≠ 0 * 2 + 1 ∧
    multiplex.state_index 2 0 1 ≠ 0 * 2 + 1 := by
  decide

/-- C2 (amended): for every valid off-diagonal cell address the index into
    the flattened debounce-state array equals col * N + row (column-major,
    the transpose of the claimed layout) in both drivers, and a successful
    round reads and updates exactly that slot of the grid with the cell's
    debounce update. -/
theorem C2_state_index_col_major (cfg : kscan_config) (env : gpio_env)
    (data : kscan_data) (r c : Nat) (hr : r < cfg.len) (hc : c < cfg.len)
    (hrc : r ≠ c)
    (hret : (roundrobin.kscan_round_robin_read cfg env data).ret = 0) :
    roundrobin.state_index cfg.len r c = c * cfg.len + r ∧
    multiplex.state_index cfg.len r c = c * cfg.len + r ∧
    (roundrobin.kscan_round_robin_read cfg env data).grid (c * cfg.len + r) =
      debounce_update (data.grid (c * cfg.len + r)) (env.pin_get r c)
        cfg.debounce_scan_period_ms cfg.debounce_config := by
  refine ⟨rfl, rfl, ?_⟩
  have h := read_grid_at cfg env data r c hr hc (Ne.symm hrc) hret
  simpa [roundrobin.state_index, round_cell_update] using h

theorem C2_witness :
    roundrobin.state_index wit_cfg_poll.len 0 1 = 1 * wit_cfg_poll.len + 0 ∧
    multiplex.state_index wit_cfg_poll.len 0 1 = 1 * wit_cfg_poll.len + 0 ∧
    (roundrobin.kscan_round_robin_read wit_cfg_poll wit_env_ok wit_data).grid
        (1 * wit_cfg_poll.len + 0) =
      debounce_update (wit_data.grid (1 * wit_cfg_poll.len + 0))
        (wit_env_ok.pin_get 0 1) wit_cfg_poll.debounce_scan_period_ms
        wit_cfg_poll.debounce_config :=
  C2_state_index_col_major wit_cfg_poll wit_env_ok wit_data 0 1 (by decide)
    (by decide) (by decide) (by decide)

/-- C3 (counterexample): a round that fails its readiness check returns a
    nonzero error and issues no reschedule at all — the claimed re-arm at
    the normal cadence does not happen, and the work handler, which
    discards the error, adds none either. -/
theorem C3_counterexample :
    (roundrobin.kscan_round_robin_read wit_cfg_poll wit_env_notready wit_data).ret ≠ 0 ∧
    (roundrobin.kscan_round_robin_read wit_cfg_poll wit_env_notready wit_data).sched
      = none ∧
    (roundrobin.kscan_round_robin_work_handler wit_cfg_poll wit_env_notready
      wit_data).sched = none := by
  decide

/-- C3 (amended): a scan round that encounters a hardware error returns on
    the first error and performs no rescheduling; the work handler ignores
    the returned error, so no later scan round is scheduled by a failed
    round. -/
theorem C3_error_returns_without_reschedule (cfg : kscan_config) (env : gpio_env)
    (data : kscan_data)
    (h : (roundrobin.kscan_round_robin_read cfg env data).ret ≠ 0) :
    (roundrobin.kscan_round_robin_read cfg env data).sched = none ∧
    (roundrobin.kscan_round_robin_work_handler cfg env data).sched = none :=
  ⟨read_error_sched_none cfg env data h, read_error_sched_none cfg env data h⟩

theorem C3_witness :
    (roundrobin.kscan_round_robin_read wit_cfg_poll wit_env_notready wit_data).sched
      = none ∧
    (roundrobin.kscan_round_robin_work_handler wit_cfg_poll wit_env_notready
      wit_data).sched = none :=
  C3_error_returns_without_reschedule wit_cfg_poll wit_env_notready wit_data
    (by decide)

/-- C4 (counterexample): a round that errors when configuring pin 1 as
    output, after row 0 reported an immediate press of cell (0, 1), returns
    a nonzero error yet has already delivered the (0, 1, pressed) callback
    and toggled that cell's debounce state. -/
theorem C4_counterexample :
    (roundrobin.kscan_round_robin_read wit_cfg_fast wit_env_outfail wit_data).ret ≠ 0 ∧
    (roundrobin.kscan_round_robin_read wit_cfg_fast wit_env_outfail wit_data).events
      = [(0, 1, true)] ∧
    ((roundrobin.kscan_round_robin_read wit_cfg_fast wit_env_outfail wit_data).grid
        (roundrobin.state_index 2 0 1)).pressed = true ∧
    (wit_data.grid (roundrobin.state_index 2 0 1)).pressed = false := by
  decide

/-- C4 (amended): an aborted round is atomic per row, not per round: its
    callbacks and debounce updates are exactly those of fully scanning some
    prefix of the rows (the rows completed before the failure), and rows
    from the failing point onward contribute no callback and no state
    change.  In particular an error during the initial defensive input
    reset leaves the grid unchanged and delivers no callback (the k = 0
    prefix). -/
theorem C4_abort_effects_are_row_prefix (cfg : kscan_config) (env : gpio_env)
    (data : kscan_data)
    (h : (roundrobin.kscan_round_robin_read cfg env data).ret ≠ 0) :
    ∃ k, k ≤ cfg.len ∧
      (roundrobin.kscan_round_robin_read cfg env data).grid =
        (row_scan_to cfg env data.callback data.grid k).grid ∧
      (roundrobin.kscan_round_robin_read cfg env data).events =
        (row_scan_to cfg env data.callback data.grid k).events :=
  read_error_prefix cfg env data h

theorem C4_witness :
    ∃ k, k ≤ wit_cfg_fast.len ∧
      (roundrobin.kscan_round_robin_read wit_cfg_fast wit_env_outfail wit_data).grid =
        (row_scan_to wit_cfg_fast wit_env_outfail wit_data.callback wit_data.grid
          k).grid ∧
      (roundrobin.kscan_round_robin_read wit_cfg_fast wit_env_outfail
          wit_data).events =
        (row_scan_to wit_cfg_fast wit_env_outfail wit_data.callback wit_data.grid
          k).events :=
  C4_abort_effects_are_row_prefix wit_cfg_fast wit_env_outfail wit_data (by decide)

/-- C5: every callback a scan round emits (also an aborted one) carries a
    row and a column below the pin count and never addresses a diagonal
    cell, and the callbacks of a single round are strictly increasing in
    lexicographic (row, col) order. -/
theorem C5_callbacks_valid_and_ordered (cfg : kscan_config) (env : gpio_env)
    (data : kscan_data) :
    (∀ e ∈ (roundrobin.kscan_round_robin_read cfg env data).events,
      e.1 < cfg.len ∧ e.2.1 < cfg.len ∧ e.1 ≠ e.2.1) ∧
    (roundrobin.kscan_round_robin_read cfg env data).events.Pairwise event_lex_lt := by
  obtain ⟨k, hk, hev⟩ := read_events_take cfg env data
  rw [hev]
  constructor
  · intro e he
    obtain ⟨h1, h2, h3⟩ := round_events_mem cfg env data.callback data.grid _ e he
    have h1' : e.1 ∈ List.range cfg.len :=
      (List.take_sublist k (List.range cfg.len)).subset h1
    exact ⟨List.mem_range.mp h1', List.mem_range.mp h2, Ne.symm h3⟩
  · exact round_events_pairwise cfg env data.callback data.grid _
      (List.Pairwise.sublist (List.take_sublist k (List.range cfg.len))
        (List.pairwise_lt_range cfg.len))

theorem C5_witness :
    ((0, 1, true) : Nat × Nat × Bool).1 < wit_cfg_fast.len ∧
    ((0, 1, true) : Nat × Nat × Bool).2.1 < wit_cfg_fast.len ∧
    ((0, 1, true) : Nat × Nat × Bool).1 ≠ ((0, 1, true) : Nat × Nat × Bool).2.1 :=
  (C5_callbacks_valid_and_ordered wit_cfg_fast wit_env_pressed wit_data).1
    (0, 1, true) (by decide)

/-- C6: a non-quiescent round advances the scan timestamp by exactly the
    fast cadence and reschedules at that absolute time, and a quiescent
    round in polling mode advances it by exactly the slow cadence and
    reschedules at that absolute time — next wake = previous scan_time +
    period, not now + period. -/
theorem C6_absolute_time_reschedule (cfg : kscan_config) (env : gpio_env)
    (data : kscan_data) :
    (((roundrobin.kscan_round_robin_read cfg env data).continue_scan = some true) →
      (roundrobin.kscan_round_robin_read cfg env data).scan_time =
        data.scan_time + (cfg.debounce_scan_period_ms : Int) ∧
      (roundrobin.kscan_round_robin_read cfg env data).sched =
        some (sched_action.abs_ms
          (roundrobin.kscan_round_robin_read cfg env data).scan_time)) ∧
    (((roundrobin.kscan_round_robin_read cfg env data).continue_scan = some false) →
      cfg.use_interrupt = false →
      (roundrobin.kscan_round_robin_read cfg env data).scan_time =
        data.scan_time + (cfg.poll_period_ms : Int) ∧
      (roundrobin.kscan_round_robin_read cfg env data).sched =
        some (sched_action.abs_ms
          (roundrobin.kscan_round_robin_read cfg env data).scan_time)) := by
  simp only [roundrobin.kscan_round_robin_read]
  by_cases h0 : (roundrobin.kscan_round_robin_set_all_as_input env cfg.len).2 ≠ 0
  · rw [if_pos h0]
    exact ⟨fun h => by simp at h, fun h => by simp at h⟩
  · rw [if_neg h0]
    by_cases h1 : (roundrobin.scan_rows cfg env data.callback (List.range cfg.len)
        { grid := data.grid, events := [], continue_scan := false, null_deref := false }
        []).2.2 ≠ 0
    · rw [if_pos h1]
      exact ⟨fun h => by simp at h, fun h => by simp at h⟩
    · rw [if_neg h1]
      by_cases h2 : (roundrobin.scan_rows cfg env data.callback (List.range cfg.len)
          { grid := data.grid, events := [], continue_scan := false, null_deref := false }
          []).1.continue_scan = true
      · rw [if_pos h2]
        exact ⟨fun _ => by
          constructor
          · simp [roundrobin.kscan_round_robin_read_continue]
          · simp [roundrobin.kscan_round_robin_read_continue],
          fun h => by simp at h⟩
      · rw [if_neg h2]
        refine ⟨fun h => by simp at h, fun _ huse => ?_⟩
        constructor
        · simp [roundrobin.kscan_round_robin_read_end, huse]
        · simp [roundrobin.kscan_round_robin_read_end, huse]

theorem C6_witness :
    ((roundrobin.kscan_round_robin_read wit_cfg_poll wit_env_pressed wit_data).scan_time =
        wit_data.scan_time + (wit_cfg_poll.debounce_scan_period_ms : Int) ∧
      (roundrobin.kscan_round_robin_read wit_cfg_poll wit_env_pressed wit_data).sched =
        some (sched_action.abs_ms
          (roundrobin.kscan_round_robin_read wit_cfg_poll wit_env_pressed
            wit_data).scan_time)) ∧
    ((roundrobin.kscan_round_robin_read wit_cfg_poll wit_env_ok wit_data).scan_time =
        wit_data.scan_time + (wit_cfg_poll.poll_period_ms : Int) ∧
      (roundrobin.kscan_round_robin_read wit_cfg_poll wit_env_ok wit_data).sched =
        some (sched_action.abs_ms
          (roundrobin.kscan_round_robin_read wit_cfg_poll wit_env_ok
            wit_data).scan_time)) :=
  ⟨(C6_absolute_time_reschedule wit_cfg_poll wit_env_pressed wit_data).1 (by decide),
    (C6_absolute_time_reschedule wit_cfg_poll wit_env_ok wit_data).2 (by decide) rfl⟩

/-- C7: in interrupt mode, a quiescent round's idle entry re-enables the
    level-active interrupt on the interrupt pin and then configures every
    matrix pin as an output driven to 1, in that order at the tail of the
    round's GPIO actions, and issues no timer reschedule. -/
theorem C7_interrupt_idle_entry (cfg : kscan_config) (env : gpio_env)
    (data : kscan_data) (hint : cfg.use_interrupt = true)
    (hq : (roundrobin.kscan_round_robin_read cfg env data).continue_scan = some false)
    (hintok : env.intr_configure gpio_intr_flags.GPIO_INT_LEVEL_ACTIVE = 0)
    (hout : ∀ i, i < cfg.len → env.configure_output i = 0 ∧ env.set_pin i 1 = 0) :
    (∃ pre, (roundrobin.kscan_round_robin_read cfg env data).actions =
      pre ++ gpio_action.intr_config gpio_intr_flags.GPIO_INT_LEVEL_ACTIVE ::
        idle_drive_actions cfg.len) ∧
    (roundrobin.kscan_round_robin_read cfg env data).sched = none := by
  have hie : roundrobin.kscan_round_robin_interrupt_enable env cfg.len =
      (gpio_action.intr_config gpio_intr_flags.GPIO_INT_LEVEL_ACTIVE ::
        idle_drive_actions cfg.len, 0) := by
    unfold roundrobin.kscan_round_robin_interrupt_enable
      roundrobin.kscan_round_robin_interrupt_configure
      roundrobin.kscan_round_robin_set_all_outputs
    rw [set_all_outputs_loop_ok env 1 (List.range cfg.len)
      (fun i hi => hout i (List.mem_range.mp hi))]
    simp [hintok, idle_drive_actions]
  simp only [roundrobin.kscan_round_robin_read] at hq ⊢
  by_cases h0 : (roundrobin.kscan_round_robin_set_all_as_input env cfg.len).2 ≠ 0
  · rw [if_pos h0] at hq
    simp at hq
  · rw [if_neg h0] at hq ⊢
    by_cases h1 : (roundrobin.scan_rows cfg env data.callback (List.range cfg.len)
        { grid := data.grid, events := [], continue_scan := false, null_deref := false }
        []).2.2 ≠ 0
    · rw [if_pos h1] at hq
      simp at hq
    · rw [if_neg h1] at hq ⊢
      by_cases h2 : (roundrobin.scan_rows cfg env data.callback (List.range cfg.len)
          { grid := data.grid, events := [], continue_scan := false, null_deref := false }
          []).1.continue_scan = true
      · rw [if_pos h2] at hq
        simp at hq
      · rw [if_neg h2]
        constructor
        · refine ⟨(roundrobin.kscan_round_robin_set_all_as_input env cfg.len).1 ++
            (roundrobin.scan_rows cfg env data.callback (List.range cfg.len)
              { grid := data.grid, events := [], continue_scan := false,
                null_deref := false } []).2.1, ?_⟩
          show _ ++ (roundrobin.kscan_round_robin_read_end cfg env data.scan_time).2.2 = _
          simp [roundrobin.kscan_round_robin_read_end, hint, hie]
        · show (roundrobin.kscan_round_robin_read_end cfg env data.scan_time).2.1 = none
          simp [roundrobin.kscan_round_robin_read_end, hint]

theorem C7_witness :
    (∃ pre, (roundrobin.kscan_round_robin_read wit_cfg_intr wit_env_ok
        wit_data).actions =
      pre ++ gpio_action.intr_config gpio_intr_flags.GPIO_INT_LEVEL_ACTIVE ::
        idle_drive_actions wit_cfg_intr.len) ∧
    (roundrobin.kscan_round_robin_read wit_cfg_intr wit_env_ok wit_data).sched = none :=
  C7_interrupt_idle_entry wit_cfg_intr wit_env_ok wit_data rfl (by decide) rfl
    (fun _ _ => ⟨rfl, rfl⟩)

/-- C8: configure returns -EINVAL exactly when the callback is absent, and
    then leaves the driver data (and thus any previously installed sink)
    unchanged; a present callback is installed with return 0.  enable
    stamps the scan timestamp with the supplied current uptime and performs
    one immediate scan round, returning that round's result. -/
theorem C8_configure_and_enable (data : kscan_data) :
    (∀ cb, (roundrobin.kscan_round_robin_configure data cb).1 = -EINVAL ↔ cb = none) ∧
    ((roundrobin.kscan_round_robin_configure data none).2 = data) ∧
    (∀ f, (roundrobin.kscan_round_robin_configure data (some f)).1 = 0 ∧
      (roundrobin.kscan_round_robin_configure data (some f)).2.callback = some f) ∧
    (∀ cfg env now, roundrobin.kscan_round_robin_enable cfg env now data =
      roundrobin.kscan_round_robin_read cfg env { data with scan_time := now }) := by
  refine ⟨?_, rfl, fun f => ⟨rfl, rfl⟩, fun _ _ _ => rfl⟩
  intro cb
  cases cb with
  | none => simp [roundrobin.kscan_round_robin_configure]
  | some f => simp [roundrobin.kscan_round_robin_configure, EINVAL]

theorem C8_witness :
    (roundrobin.kscan_round_robin_configure wit_data none).1 = -EINVAL :=
  ((C8_configure_and_enable wit_data).1 none).mpr rfl

theorem mx_rr_set_all_as_input_loop (env : gpio_env) :
    ∀ L : List Nat, multiplex.set_all_as_input_loop env L =
      roundrobin.set_all_as_input_loop env L := by
  intro L
  induction L with
  | nil => rfl
  | cons i L ih =>
    simp only [multiplex.set_all_as_input_loop, roundrobin.set_all_as_input_loop]
    rw [show multiplex.kscan_multiplex_set_as_input env i =
      roundrobin.kscan_round_robin_set_as_input env i from rfl, ih]

theorem mx_rr_set_all_outputs_loop (env : gpio_env) (value : Int) :
    ∀ L : List Nat, multiplex.set_all_outputs_loop env value L =
      roundrobin.set_all_outputs_loop env value L := by
  intro L
  induction L with
  | nil => rfl
  | cons i L ih =>
    simp only [multiplex.set_all_outputs_loop, roundrobin.set_all_outputs_loop]
    rw [ih]

theorem mx_rr_scan_rows (cfg : kscan_config) (env : gpio_env) (cb : Option Nat) :
    ∀ (R : List Nat) (st : scan_state) (acts : List gpio_action),
      multiplex.scan_rows cfg env cb R st acts =
        roundrobin.scan_rows cfg env cb R st acts := by
  intro R
  induction R with
  | nil =>
    intro st acts
    rfl
  | cons r R ih =>
    intro st acts
    simp only [multiplex.scan_rows, roundrobin.scan_rows]
    rw [show multiplex.kscan_multiplex_set_as_output env r =
      roundrobin.kscan_round_robin_set_as_output env r from rfl,
      show multiplex.kscan_multiplex_set_as_input env r =
      roundrobin.kscan_round_robin_set_as_input env r from rfl,
      show multiplex.scan_row cfg env cb r st = roundrobin.scan_row cfg env cb r st
        from rfl,
      ih]

theorem mx_rr_read_end (cfg : kscan_config) (env : gpio_env) (t : Int) :
    multiplex.kscan_multiplex_read_end cfg env t =
      roundrobin.kscan_round_robin_read_end cfg env t := by
  unfold multiplex.kscan_multiplex_read_end roundrobin.kscan_round_robin_read_end
  rw [show multiplex.kscan_multiplex_interrupt_enable env cfg.len =
    roundrobin.kscan_round_robin_interrupt_enable env cfg.len from ?_]
  · unfold multiplex.kscan_multiplex_interrupt_enable
      roundrobin.kscan_round_robin_interrupt_enable
      multiplex.kscan_multiplex_set_all_outputs
      roundrobin.kscan_round_robin_set_all_outputs
    rw [mx_rr_set_all_outputs_loop env 1 (List.range cfg.len)]
    rfl

theorem mx_rr_read (cfg : kscan_config) (env : gpio_env) (data : kscan_data) :
    multiplex.kscan_multiplex_read cfg env data =
      roundrobin.kscan_round_robin_read cfg env data := by
  simp only [multiplex.kscan_multiplex_read, roundrobin.kscan_round_robin_read,
    multiplex.kscan_multiplex_set_all_as_input,
    roundrobin.kscan_round_robin_set_all_as_input]
  rw [mx_rr_set_all_as_input_loop env (List.range cfg.len),
    mx_rr_scan_rows cfg env data.callback, mx_rr_read_end cfg env data.scan_time,
    show multiplex.kscan_multiplex_read_continue cfg data.scan_time =
      roundrobin.kscan_round_robin_read_continue cfg data.scan_time from rfl]

/-- C9: the multiplex driver and the round-robin driver are behaviourally
    equivalent: on every configuration, environment and driver state their
    read, configure, enable and disable operations produce identical
    outcomes — the same debounce grid, callback sequence, GPIO actions,
    scheduling decision and return code. -/
theorem C9_variants_equivalent :
    (∀ (cfg : kscan_config) (env : gpio_env) (data : kscan_data),
      multiplex.kscan_multiplex_read cfg env data =
        roundrobin.kscan_round_robin_read cfg env data) ∧
    (∀ (data : kscan_data) (cb : Option Nat),
      multiplex.kscan_multiplex_configure data cb =
        roundrobin.kscan_round_robin_configure data cb) ∧
    (∀ (cfg : kscan_config) (env : gpio_env) (now : Int) (data : kscan_data),
      multiplex.kscan_multiplex_enable cfg env now data =
        roundrobin.kscan_round_robin_enable cfg env now data) ∧
    (∀ (cfg : kscan_config) (env : gpio_env),
      multiplex.kscan_multiplex_disable cfg env =
        roundrobin.kscan_round_robin_disable cfg env) :=
  ⟨fun cfg env data => mx_rr_read cfg env data, fun _ _ => rfl,
    fun cfg env now data => by
      unfold multiplex.kscan_multiplex_enable roundrobin.kscan_round_robin_enable
      rw [mx_rr_read],
    fun _ _ => rfl⟩

/-- C10: a non-null callback is a precondition of scanning.  With an
    installed callback a round never dereferences an absent callback; with
    no callback installed, any round that leaves some off-diagonal cell
    reporting changed dereferences the null callback (the code calls
    data->callback with no null check). -/
theorem C10_null_callback_precondition :
    (∀ (cfg : kscan_config) (env : gpio_env) (data : kscan_data) (f : Nat),
      data.callback = some f →
      (roundrobin.kscan_round_robin_read cfg env data).null_deref = false) ∧
    (∀ (cfg : kscan_config) (env : gpio_env) (data : kscan_data) (r c : Nat),
      data.callback = none → r < cfg.len → c < cfg.len → c ≠ r →
      (roundrobin.kscan_round_robin_read cfg env data).ret = 0 →
      ((roundrobin.kscan_round_robin_read cfg env data).grid
        (roundrobin.state_index cfg.len r c)).changed = true →
      (roundrobin.kscan_round_robin_read cfg env data).null_deref = true) := by
  constructor
  · exact fun cfg env data f h => read_null_deref_some cfg env data f h
  · intro cfg env data r c hnone hr hc hcr hret hch
    have hnd := (read_success_char cfg env data hret).2.2.2
    rw [hnd, hnone]
    simp only [Option.isNone_none, Bool.true_and]
    rw [read_grid_at cfg env data r c hr hc hcr hret] at hch
    unfold round_any_changed row_any_changed
    rw [List.any_eq_true]
    refine ⟨r, List.mem_range.mpr hr, ?_⟩
    rw [List.any_eq_true]
    exact ⟨c, List.mem_range.mpr hc, by simp [hcr, hch]⟩

theorem C10_witness :
    (roundrobin.kscan_round_robin_read wit_cfg_fast wit_env_pressed
      wit_data).null_deref = false ∧
    (roundrobin.kscan_round_robin_read wit_cfg_fast wit_env_pressed
      wit_data_none).null_deref = true :=
  ⟨(C10_null_callback_precondition).1 wit_cfg_fast wit_env_pressed wit_data 0 rfl,
    (C10_null_callback_precondition).2 wit_cfg_fast wit_env_pressed wit_data_none 0 1
      rfl (by decide) (by decide) (by decide) (by decide) (by decide)⟩
